import Mathlib

/-
Verification of the pattern-matching core of the Kriterion Quant
"Anni Correlati / Trimestri Correlati" application (src/app.py).

The embedding models the price DataFrame as a list of rows carrying the
columns used by the core (`index.year/month/day`, `adjusted_close`,
`returns`, `cum_returns`); float columns that can hold NaN are modelled
as `Option ℚ` and exact rational arithmetic stands in for IEEE floats.
A Pearson coefficient is represented exactly by the pair
(num, den) = (n·Σxy − Σx·Σy, (n·Σxx − Σx²)·(n·Σyy − Σy²)),
whose real value is num / √den; `np.corrcoef` returns NaN (modelled as
`none`) exactly when one of the two variances is zero.  The host clock
read by `datetime.now()` is passed explicitly as a `Today` value.
-/

namespace PatternApp

/-- One row of the price DataFrame: the date index split into the fields
the core reads (`year`, `month`, `day`) plus the `adjusted_close`,
`returns` and `cum_returns` columns.  The two derived float columns are
`Option ℚ` because a float column can hold NaN. -/
structure Row where
  year : Int
  month : Nat
  day : Nat
  adjusted_close : ℚ
  returns : Option ℚ
  cum_returns : Option ℚ
deriving DecidableEq

/-- The month/day of the host clock, as read by `datetime.now()` inside
`calculate_ytd_correlation` and `find_similar_years`. -/
structure Today where
  month : Nat
  day : Nat
deriving DecidableEq

/-- The `Config` class of app.py: centralized configuration whose
`MIN_CORRELATION` and `TOP_N_SIMILAR` class attributes are mutated by the
sidebar; the remaining attributes are presentation/fetch parameters never
read by the pattern-matching core. -/
structure Config where
  MIN_CORRELATION : ℚ
  TOP_N_SIMILAR : Nat
  START_DATE : String
  CURRENT_YEAR : Int
  CHART_TEMPLATE : String
  COLOR_CURRENT : String
  COLOR_SIMILAR : List String
deriving DecidableEq

/-- The `PatternMatcher` object: the DataFrame held in `self.data` and the
`self.current_year` attribute set from `datetime.now().year`. -/
structure PatternMatcher where
  data : List Row
  current_year : Int
deriving DecidableEq

/-- Embedding of `PatternMatcher.__init__`: raises `ValueError("DataFrame vuoto")` when
the supplied DataFrame is empty, otherwise stores the data and the host
clock's year. -/
def patternMatcherInit (data : List Row) (nowYear : Int) : Except String PatternMatcher :=
  if data.isEmpty then Except.error ("DataFrame vuoto") else Except.ok ⟨data, nowYear⟩

/-- Embedding of `self.data[self.data.index.year == y]`. -/
def yearRows (data : List Row) (y : Int) : List Row :=
  data.filter (fun r => decide (r.year = y))

/-- The year-to-date cutoff mask
`(month < end_month) | ((month == end_month) & (day <= end_day))`. -/
def ytdCutoff (today : Today) (r : Row) : Bool :=
  decide (r.month < today.month ∨ (r.month = today.month ∧ r.day ≤ today.day))

/-- The year-to-date extract of a year: the year's rows restricted to
on-or-before the cutoff month/day. -/
def ytdRows (data : List Row) (y : Int) (today : Today) : List Row :=
  (yearRows data y).filter (ytdCutoff today)

/-- Embedding of `(1 + returns).cumprod() - 1` with NaN propagation: once the running
product hits a NaN every later position is NaN, as for float cumprod. -/
def cumReturnsAux (acc : Option ℚ) : List (Option ℚ) → List (Option ℚ)
  | [] => []
  | r :: rs =>
      match acc, r with
      | some a, some x => (some (a * (1 + x) - 1)) :: cumReturnsAux (some (a * (1 + x))) rs
      | _, _ => none :: cumReturnsAux none rs

/-- The cumulative-return path of a slice of the `returns` column,
recomputed from a fresh running product that starts at 1. -/
def cumReturns (rs : List (Option ℚ)) : List (Option ℚ) :=
  cumReturnsAux (some 1) rs

/-- Embedding of `mask = ~(np.isnan(c1) | np.isnan(c2))` followed by selecting
`c1[mask], c2[mask]`: the positions where both paths are defined, as a
list of pairs. -/
def maskedPairs (xs ys : List (Option ℚ)) : List (ℚ × ℚ) :=
  (xs.zip ys).filterMap (fun p =>
    match p.1, p.2 with
    | some a, some b => some (a, b)
    | _, _ => none)

/-- Exact representation of a (defined) float Pearson coefficient: the
real value denoted is `num / √den`. -/
structure PV where
  num : ℚ
  den : ℚ
deriving DecidableEq

/-- Embedding of `np.corrcoef(x, y)[0, 1]` over the paired positions: NaN (`none`)
exactly when one of the two variances `n·Σxx − Σx²`, `n·Σyy − Σy²` is
zero (then numpy divides 0 by 0); otherwise the coefficient
`(n·Σxy − Σx·Σy) / √((n·Σxx − Σx²)·(n·Σyy − Σy²))` represented exactly. -/
def corrcoef (ps : List (ℚ × ℚ)) : Option PV :=
  let n : ℚ := (ps.length : ℚ)
  let sx := (ps.map (fun p => p.1)).sum
  let sy := (ps.map (fun p => p.2)).sum
  let sxx := (ps.map (fun p => p.1 * p.1)).sum
  let syy := (ps.map (fun p => p.2 * p.2)).sum
  let sxy := (ps.map (fun p => p.1 * p.2)).sum
  if n * sxx - sx * sx = 0 ∨ n * syy - sy * sy = 0 then none
  else some ⟨n * sxy - sx * sy, (n * sxx - sx * sx) * (n * syy - sy * sy)⟩

/-- The real value `num / √den` compared: `PV.Le v w` says the coefficient
denoted by `v` is at most the one denoted by `w`. -/
def PV.Le (v w : PV) : Prop :=
  (v.num : ℝ) / Real.sqrt (v.den : ℝ) ≤ (w.num : ℝ) / Real.sqrt (w.den : ℝ)

/-- The denoted coefficient is at least the rational threshold `q`
(the float comparison `corr >= min_correlation`). -/
def PV.AtLeast (v : PV) (q : ℚ) : Prop :=
  (q : ℝ) ≤ (v.num : ℝ) / Real.sqrt (v.den : ℝ)

/-- The denoted coefficient equals `1.0`. -/
def PV.IsOne (v : PV) : Prop :=
  (v.num : ℝ) / Real.sqrt (v.den : ℝ) = 1

/-- Decidable version of the float comparison `corr >= min_correlation`,
by sign analysis and squaring (valid when `0 < den`). -/
def PV.geB (v : PV) (q : ℚ) : Bool :=
  if 0 ≤ v.num then
    if q ≤ 0 then true else decide (q * q * v.den ≤ v.num * v.num)
  else
    if 0 ≤ q then false else decide (v.num * v.num ≤ q * q * v.den)

/-- Decidable version of the float comparison `corr_v < corr_w` used by
the descending sort (valid when both `den`s are positive). -/
def PV.ltB (v w : PV) : Bool :=
  if 0 ≤ v.num then
    if 0 < w.num then decide (v.num * v.num * w.den < w.num * w.num * v.den) else false
  else
    if 0 ≤ w.num then true else decide (w.num * w.num * v.den < v.num * v.num * w.den)

/-- Embedding of `PatternMatcher.calculate_ytd_correlation`: extract the YTD slice of
both years at the host clock's cutoff, require at least 20 observations
in the shorter slice, recompute both cumulative-return paths over the
first `min_len` returns, drop positions where either path is NaN, require
at least 20 valid paired positions, and return the Pearson coefficient
(`none` models the NaN returned on failure). -/
def calculate_ytd_correlation (m : PatternMatcher) (today : Today) (year1 year2 : Int) :
    Option PV :=
  let data1 := ytdRows m.data year1 today
  let data2 := ytdRows m.data year2 today
  let min_len := min data1.length data2.length
  if min_len < 20 then none
  else
    let cum_returns1 := cumReturns ((data1.map Row.returns).take min_len)
    let cum_returns2 := cumReturns ((data2.map Row.returns).take min_len)
    let pairs := maskedPairs cum_returns1 cum_returns2
    if pairs.length < 20 then none
    else corrcoef pairs

/-- Embedding of `PatternMatcher._get_ytd_return`: the YTD return of a year up to a
month/day, `(last/first - 1) * 100` when the subset has more than one
row, NaN (`none`) otherwise. -/
def get_ytd_return (m : PatternMatcher) (year : Int) (month day : Nat) : Option ℚ :=
  let subset := (yearRows m.data year).filter
      (fun r => decide (r.month < month ∨ (r.month = month ∧ r.day ≤ day)))
  match subset.head?, subset.getLast? with
  | some firstRow, some lastRow =>
      if 1 < subset.length then
        some ((lastRow.adjusted_close / firstRow.adjusted_close - 1) * 100)
      else none
  | _, _ => none

/-- A row of the DataFrame returned by `find_similar_years`. -/
structure YearRow where
  year : Int
  correlation : PV
  year_return : Option ℚ
  ytd_return_at_similar_point : Option ℚ
deriving DecidableEq

/-- The record appended for a kept candidate year: full-year return
`(last/first - 1) * 100` and YTD return at the cutoff when the year has
rows, NaN for both otherwise. -/
def yearEntry (m : PatternMatcher) (today : Today) (year : Int) (corr : PV) : YearRow :=
  let year_data := yearRows m.data year
  match year_data.head?, year_data.getLast? with
  | some firstRow, some lastRow =>
      { year := year, correlation := corr,
        year_return := some ((lastRow.adjusted_close / firstRow.adjusted_close - 1) * 100),
        ytd_return_at_similar_point := get_ytd_return m year today.month today.day }
  | _, _ =>
      { year := year, correlation := corr, year_return := none,
        ytd_return_at_similar_point := none }

/-- One iteration of the `find_similar_years` loop body for a candidate
year: `none` when the correlation is NaN or below the threshold (the
candidate is skipped), otherwise the appended record. -/
def scoreYear (m : PatternMatcher) (today : Today) (reference_year : Int)
    (min_correlation : ℚ) (year : Int) : Option YearRow :=
  match calculate_ytd_correlation m today reference_year year with
  | none => none
  | some corr =>
      if corr.geB min_correlation then some (yearEntry m today year corr) else none

/-- Ascending insertion for `sorted(...)` on years. -/
def insertAsc (x : Int) : List Int → List Int
  | [] => [x]
  | y :: ys => if x ≤ y then x :: y :: ys else y :: insertAsc x ys

/-- Embedding of `sorted(...)`: ascending sort of the year labels. -/
def sortAscInt (l : List Int) : List Int := l.foldr insertAsc []

/-- Embedding of `sorted(self.data.index.year.unique())`. -/
def uniqueYears (data : List Row) : List Int :=
  sortAscInt (data.map Row.year).dedup

/-- Descending-by-coefficient insertion: a row is placed before the first
row with a strictly smaller coefficient, so equal coefficients keep their
scan order. -/
def insertYearRow (x : YearRow) : List YearRow → List YearRow
  | [] => [x]
  | y :: ys =>
      if PV.ltB x.correlation y.correlation then y :: insertYearRow x ys else x :: y :: ys

/-- Embedding of `df_corr.sort_values('correlation', ascending=False)`. -/
def sortYearRows (l : List YearRow) : List YearRow := l.foldr insertYearRow []

/-- Embedding of `PatternMatcher.find_similar_years`: scan every year of the series in
ascending order, skip the reference year, keep the candidates whose YTD
correlation with the reference year is defined and at least
`min_correlation`, then sort descending by coefficient and truncate to
`Config.TOP_N_SIMILAR` (an empty DataFrame when nothing was kept). -/
def find_similar_years (cfg : Config) (m : PatternMatcher) (today : Today)
    (reference_year : Int) (min_correlation : ℚ) : List YearRow :=
  let years := uniqueYears m.data
  let correlations := (years.filter (fun y => decide (y ≠ reference_year))).filterMap
      (scoreYear m today reference_year min_correlation)
  if correlations.isEmpty then [] else (sortYearRows correlations).take cfg.TOP_N_SIMILAR

/-- Embedding of `quarter_months.get(quarter, [])`: the three calendar months of a
quarter, empty for a quarter outside {1,2,3,4}. -/
def quarter_months (quarter : Nat) : List Nat :=
  if quarter = 1 then [1, 2, 3]
  else if quarter = 2 then [4, 5, 6]
  else if quarter = 3 then [7, 8, 9]
  else if quarter = 4 then [10, 11, 12]
  else []

/-- Embedding of `PatternMatcher.get_quarter_data`: the rows of a year whose month
falls in the quarter's month set. -/
def get_quarter_data (m : PatternMatcher) (year : Int) (quarter : Nat) : List Row :=
  (yearRows m.data year).filter (fun r => decide (r.month ∈ quarter_months quarter))

/-- Embedding of `PatternMatcher.calculate_quarterly_correlation`: like the YTD
correlation but on quarter extracts, with minimum length 15 checked on
each extract before alignment. -/
def calculate_quarterly_correlation (m : PatternMatcher) (year1 : Int) (q1 : Nat)
    (year2 : Int) (q2 : Nat) : Option PV :=
  let data1 := get_quarter_data m year1 q1
  let data2 := get_quarter_data m year2 q2
  if data1.length < 15 ∨ data2.length < 15 then none
  else
    let min_len := min data1.length data2.length
    let cum_returns1 := cumReturns ((data1.map Row.returns).take min_len)
    let cum_returns2 := cumReturns ((data2.map Row.returns).take min_len)
    let pairs := maskedPairs cum_returns1 cum_returns2
    if pairs.length < 15 then none
    else corrcoef pairs

/-- A row of the DataFrame returned by `find_similar_quarters`. -/
structure QuarterRow where
  year : Int
  quarter : Nat
  year_quarter : String
  correlation : PV
  quarter_return : Option ℚ
deriving DecidableEq

/-- Embedding of `PatternMatcher._get_quarter_return`: total return of a quarter,
`(last/first - 1) * 100` when it has more than one row, NaN otherwise. -/
def get_quarter_return (m : PatternMatcher) (year : Int) (quarter : Nat) : Option ℚ :=
  let data := get_quarter_data m year quarter
  match data.head?, data.getLast? with
  | some firstRow, some lastRow =>
      if 1 < data.length then
        some ((lastRow.adjusted_close / firstRow.adjusted_close - 1) * 100)
      else none
  | _, _ => none

/-- The record appended for a kept candidate quarter, including the
`f"{year}-Q{quarter}"` label. -/
def quarterEntry (m : PatternMatcher) (year : Int) (quarter : Nat) (corr : PV) : QuarterRow :=
  { year := year, quarter := quarter,
    year_quarter := toString year ++ "-Q" ++ toString quarter,
    correlation := corr, quarter_return := get_quarter_return m year quarter }

/-- One iteration of the `find_similar_quarters` inner loop body. -/
def scoreQuarter (m : PatternMatcher) (reference_year : Int) (reference_quarter : Nat)
    (min_correlation : ℚ) (year : Int) (quarter : Nat) : Option QuarterRow :=
  match calculate_quarterly_correlation m reference_year reference_quarter year quarter with
  | none => none
  | some corr =>
      if corr.geB min_correlation then some (quarterEntry m year quarter corr) else none

/-- Descending-by-coefficient insertion for quarter rows. -/
def insertQuarterRow (x : QuarterRow) : List QuarterRow → List QuarterRow
  | [] => [x]
  | y :: ys =>
      if PV.ltB x.correlation y.correlation then y :: insertQuarterRow x ys else x :: y :: ys

/-- Embedding of `df_corr.sort_values('correlation', ascending=False)` for quarters. -/
def sortQuarterRows (l : List QuarterRow) : List QuarterRow := l.foldr insertQuarterRow []

/-- Embedding of `PatternMatcher.find_similar_quarters`: scan every (year, quarter)
pair with years ascending and quarters 1..4 inside each year, skip the
exact reference pair, keep defined coefficients at least
`min_correlation`, sort descending and truncate to `Config.TOP_N_SIMILAR`. -/
def find_similar_quarters (cfg : Config) (m : PatternMatcher) (reference_year : Int)
    (reference_quarter : Nat) (min_correlation : ℚ) : List QuarterRow :=
  let years := uniqueYears m.data
  let correlations := (years.map (fun y =>
      ([1, 2, 3, 4].filter
          (fun q => decide (¬(y = reference_year ∧ q = reference_quarter)))).filterMap
        (scoreQuarter m reference_year reference_quarter min_correlation y))).flatten
  if correlations.isEmpty then [] else (sortQuarterRows correlations).take cfg.TOP_N_SIMILAR

/-- The strict counterpart of `PV.Le`. -/
def PV.Lt (v w : PV) : Prop :=
  (v.num : ℝ) / Real.sqrt (v.den : ℝ) < (w.num : ℝ) / Real.sqrt (w.den : ℝ)

/-- Shorthand for the scaled variance `n·Σx² − (Σx)²` of the first
components of a pair list, as it appears inside `corrcoef`. -/
def varX (ps : List (ℚ × ℚ)) : ℚ :=
  (ps.length : ℚ) * (ps.map (fun p => p.1 * p.1)).sum -
    (ps.map (fun p => p.1)).sum * (ps.map (fun p => p.1)).sum

/-- Shorthand for the scaled variance of the second components. -/
def varY (ps : List (ℚ × ℚ)) : ℚ :=
  (ps.length : ℚ) * (ps.map (fun p => p.2 * p.2)).sum -
    (ps.map (fun p => p.2)).sum * (ps.map (fun p => p.2)).sum

/-- Shorthand for the scaled covariance `n·Σxy − Σx·Σy`. -/
def covXY (ps : List (ℚ × ℚ)) : ℚ :=
  (ps.length : ℚ) * (ps.map (fun p => p.1 * p.2)).sum -
    (ps.map (fun p => p.1)).sum * (ps.map (fun p => p.2)).sum

/-- Pure (NaN-free) model of the running cumulative product `a·∏(1+rᵢ) − 1`. -/
def purePath (a : ℚ) : List ℚ → List ℚ
  | [] => []
  | r :: rs => (a * (1 + r) - 1) :: purePath (a * (1 + r)) rs

/-- The fields of a row that the correlation primitives read: the date
index and the `returns` column.  The `adjusted_close` and `cum_returns`
columns are not among them. -/
def corrFields (r : Row) : Int × Nat × Nat × Option ℚ :=
  (r.year, r.month, r.day, r.returns)

/-- Concrete witness row: January observation with flat price 1. -/
def wRow (y : Int) (d : Nat) (r : ℚ) : Row :=
  ⟨y, 1, d, 1, some r, some 0⟩

/-- A witness year: 21 January observations, zero returns then a final
+100% day (a non-degenerate cumulative path). -/
def wYear (y : Int) : List Row :=
  [wRow y 1 0, wRow y 2 0, wRow y 3 0, wRow y 4 0, wRow y 5 0, wRow y 6 0, wRow y 7 0,
   wRow y 8 0, wRow y 9 0, wRow y 10 0, wRow y 11 0, wRow y 12 0, wRow y 13 0,
   wRow y 14 0, wRow y 15 0, wRow y 16 0, wRow y 17 0, wRow y 18 0, wRow y 19 0,
   wRow y 20 0, wRow y 21 1]

/-- Witness series: the same 21-day pattern replayed in 2010 and 2024. -/
def wData : List Row := wYear 2010 ++ wYear 2024

def wMatcher : PatternMatcher := ⟨wData, 2024⟩

def wConfig : Config := ⟨7 / 10, 5, "2006-01-01", 2024, "plotly_dark", "#00ff00", []⟩

/-- An as-of date late enough that every witness observation is in the
cutoff window. -/
def wToday : Today := ⟨1, 25⟩

/-- An earlier as-of date: only 18 observations fall in the window. -/
def wToday2 : Today := ⟨1, 18⟩

def wQRow : QuarterRow := ⟨2010, 1, "2010-Q1", ⟨20, 400⟩, some 0⟩

/-- Witness rows for the self-correlation claim: prices alternate between
1 and 2, so the derived within-period daily returns are +100% and −50%. -/
def vRow (d : Nat) (p r : ℚ) : Row := ⟨2020, 1, d, p, some r, some 0⟩

def vData : List Row :=
  [vRow 1 1 0, vRow 2 2 1, vRow 3 1 (-1 / 2), vRow 4 2 1, vRow 5 1 (-1 / 2),
   vRow 6 2 1, vRow 7 1 (-1 / 2), vRow 8 2 1, vRow 9 1 (-1 / 2), vRow 10 2 1,
   vRow 11 1 (-1 / 2), vRow 12 2 1, vRow 13 1 (-1 / 2), vRow 14 2 1, vRow 15 1 (-1 / 2),
   vRow 16 2 1, vRow 17 1 (-1 / 2), vRow 18 2 1, vRow 19 1 (-1 / 2), vRow 20 2 1]

def vRs : List ℚ :=
  [0, 1, -1 / 2, 1, -1 / 2, 1, -1 / 2, 1, -1 / 2, 1,
   -1 / 2, 1, -1 / 2, 1, -1 / 2, 1, -1 / 2, 1, -1 / 2, 1]

def vMatcher : PatternMatcher := ⟨vData, 2020⟩

def wConfigAlt : Config := ⟨1 / 2, 5, "2000-01-01", 1999, "simple_white", "#ffffff", ["#123456"]⟩

def wMatcherAlt : PatternMatcher := ⟨wData, 1999⟩

def wDataAlt : List Row :=
  wData.map (fun r => ⟨r.year, r.month, r.day, 77, r.returns, some 55⟩)

def wMatcherCum : PatternMatcher := ⟨wDataAlt, 2024⟩

lemma sqrtQ_pos {d : ℚ} (hd : 0 < d) : 0 < Real.sqrt (d : ℝ) :=
  Real.sqrt_pos.mpr (by exact_mod_cast hd)

lemma mul_self_sqrtQ {d : ℚ} (hd : 0 < d) :
    Real.sqrt (d : ℝ) * Real.sqrt (d : ℝ) = (d : ℝ) :=
  Real.mul_self_sqrt (by exact_mod_cast hd.le)

lemma sq_le_sq_iff_nn {a b : ℝ} (ha : 0 ≤ a) (hb : 0 ≤ b) : a * a ≤ b * b ↔ a ≤ b :=
  (mul_self_le_mul_self_iff ha hb).symm

lemma sq_lt_sq_iff_nn {a b : ℝ} (ha : 0 ≤ a) (hb : 0 ≤ b) : a * a < b * b ↔ a < b :=
  (mul_self_lt_mul_self_iff ha hb).symm

/-- The Boolean threshold test agrees with the real comparison
`q ≤ num / √den` whenever the represented coefficient is defined. -/
lemma PV.geB_iff {v : PV} {q : ℚ} (hv : 0 < v.den) :
    PV.geB v q = true ↔ PV.AtLeast v q := by
  have hs : 0 < Real.sqrt (v.den : ℝ) := sqrtQ_pos hv
  have hs2 : Real.sqrt (v.den : ℝ) * Real.sqrt (v.den : ℝ) = (v.den : ℝ) := mul_self_sqrtQ hv
  rw [PV.AtLeast, le_div_iff₀ hs]
  unfold PV.geB
  split_ifs with h1 h2 h3
  · have hq : (q : ℝ) ≤ 0 := by exact_mod_cast h2
    have hn : (0 : ℝ) ≤ (v.num : ℝ) := by exact_mod_cast h1
    simp only [true_iff]
    nlinarith [mul_nonneg (neg_nonneg.mpr hq) hs.le]
  · rw [decide_eq_true_eq]
    have hq : (0 : ℝ) < (q : ℝ) := by exact_mod_cast (not_le.mp h2)
    have hn : (0 : ℝ) ≤ (v.num : ℝ) := by exact_mod_cast h1
    have key := sq_le_sq_iff_nn (mul_nonneg hq.le hs.le) hn
    rw [show ((q : ℝ) * Real.sqrt (v.den : ℝ)) * ((q : ℝ) * Real.sqrt (v.den : ℝ)) =
        (q : ℝ) * (q : ℝ) * (Real.sqrt (v.den : ℝ) * Real.sqrt (v.den : ℝ)) from by ring,
      hs2] at key
    rw [← key]
    constructor
    · intro h
      exact_mod_cast h
    · intro h
      exact_mod_cast h
  · have hq : (0 : ℝ) ≤ (q : ℝ) := by exact_mod_cast h3
    have hn : (v.num : ℝ) < 0 := by exact_mod_cast (not_le.mp h1)
    simp only [false_iff, not_le]
    nlinarith [mul_nonneg hq hs.le]
  · rw [decide_eq_true_eq]
    have hq : (q : ℝ) < 0 := by exact_mod_cast (not_le.mp h3)
    have hn : (v.num : ℝ) < 0 := by exact_mod_cast (not_le.mp h1)
    have key := sq_le_sq_iff_nn (neg_nonneg.mpr hn.le)
      (mul_nonneg (neg_nonneg.mpr hq.le) hs.le)
    rw [show (-(v.num : ℝ)) * (-(v.num : ℝ)) = (v.num : ℝ) * (v.num : ℝ) from by ring,
      show (-(q : ℝ) * Real.sqrt (v.den : ℝ)) * (-(q : ℝ) * Real.sqrt (v.den : ℝ)) =
        (q : ℝ) * (q : ℝ) * (Real.sqrt (v.den : ℝ) * Real.sqrt (v.den : ℝ)) from by ring,
      hs2] at key
    rw [show ((q : ℝ) * Real.sqrt (v.den : ℝ) ≤ (v.num : ℝ)) ↔
        (-(v.num : ℝ) ≤ -(q : ℝ) * Real.sqrt (v.den : ℝ)) from by constructor <;> intro h <;>
          linarith, ← key]
    constructor
    · intro h
      exact_mod_cast h
    · intro h
      exact_mod_cast h

/-- The Boolean strict comparison used by the descending sort agrees with
the real comparison of the two represented coefficients. -/
lemma PV.ltB_iff {v w : PV} (hv : 0 < v.den) (hw : 0 < w.den) :
    PV.ltB v w = true ↔ PV.Lt v w := by
  have hsv : 0 < Real.sqrt (v.den : ℝ) := sqrtQ_pos hv
  have hsw : 0 < Real.sqrt (w.den : ℝ) := sqrtQ_pos hw
  have hsv2 : Real.sqrt (v.den : ℝ) * Real.sqrt (v.den : ℝ) = (v.den : ℝ) := mul_self_sqrtQ hv
  have hsw2 : Real.sqrt (w.den : ℝ) * Real.sqrt (w.den : ℝ) = (w.den : ℝ) := mul_self_sqrtQ hw
  rw [PV.Lt, div_lt_div_iff₀ hsv hsw]
  unfold PV.ltB
  split_ifs with h1 h2 h3
  · rw [decide_eq_true_eq]
    have hn : (0 : ℝ) ≤ (v.num : ℝ) := by exact_mod_cast h1
    have hm : (0 : ℝ) < (w.num : ℝ) := by exact_mod_cast h2
    have key := sq_lt_sq_iff_nn (mul_nonneg hn hsw.le) (mul_nonneg hm.le hsv.le)
    rw [show ((v.num : ℝ) * Real.sqrt (w.den : ℝ)) * ((v.num : ℝ) * Real.sqrt (w.den : ℝ)) =
        (v.num : ℝ) * (v.num : ℝ) * (Real.sqrt (w.den : ℝ) * Real.sqrt (w.den : ℝ)) from by ring,
      show ((w.num : ℝ) * Real.sqrt (v.den : ℝ)) * ((w.num : ℝ) * Real.sqrt (v.den : ℝ)) =
        (w.num : ℝ) * (w.num : ℝ) * (Real.sqrt (v.den : ℝ) * Real.sqrt (v.den : ℝ)) from by ring,
      hsv2, hsw2] at key
    rw [← key]
    constructor
    · intro h
      exact_mod_cast h
    · intro h
      exact_mod_cast h
  · have hn : (0 : ℝ) ≤ (v.num : ℝ) := by exact_mod_cast h1
    have hm : (w.num : ℝ) ≤ 0 := by exact_mod_cast (not_lt.mp h2)
    simp only [false_iff, not_lt]
    nlinarith [mul_nonneg hn hsw.le, mul_nonneg (neg_nonneg.mpr hm) hsv.le]
  · have hn : (v.num : ℝ) < 0 := by exact_mod_cast (not_le.mp h1)
    have hm : (0 : ℝ) ≤ (w.num : ℝ) := by exact_mod_cast h3
    simp only [true_iff]
    nlinarith [mul_nonneg hm hsv.le, mul_pos (neg_pos.mpr hn) hsw]
  · rw [decide_eq_true_eq]
    have hn : (v.num : ℝ) < 0 := by exact_mod_cast (not_le.mp h1)
    have hm : (w.num : ℝ) < 0 := by exact_mod_cast (not_le.mp h3)
    have key := sq_lt_sq_iff_nn (mul_nonneg (neg_nonneg.mpr hm.le) hsv.le)
      (mul_nonneg (neg_nonneg.mpr hn.le) hsw.le)
    rw [show (-(w.num : ℝ) * Real.sqrt (v.den : ℝ)) * (-(w.num : ℝ) * Real.sqrt (v.den : ℝ)) =
        (w.num : ℝ) * (w.num : ℝ) * (Real.sqrt (v.den : ℝ) * Real.sqrt (v.den : ℝ)) from by ring,
      show (-(v.num : ℝ) * Real.sqrt (w.den : ℝ)) * (-(v.num : ℝ) * Real.sqrt (w.den : ℝ)) =
        (v.num : ℝ) * (v.num : ℝ) * (Real.sqrt (w.den : ℝ) * Real.sqrt (w.den : ℝ)) from by ring,
      hsv2, hsw2] at key
    rw [show ((v.num : ℝ) * Real.sqrt (w.den : ℝ) < (w.num : ℝ) * Real.sqrt (v.den : ℝ)) ↔
        (-(w.num : ℝ) * Real.sqrt (v.den : ℝ) < -(v.num : ℝ) * Real.sqrt (w.den : ℝ)) from by
          constructor <;> intro h <;> linarith, ← key]
    constructor
    · intro h
      exact_mod_cast h
    · intro h
      exact_mod_cast h

lemma PV.le_of_ltB_eq_false {v w : PV} (hv : 0 < v.den) (hw : 0 < w.den)
    (h : PV.ltB v w = false) : PV.Le w v := by
  have hne : PV.ltB v w ≠ true := by rw [h]; simp
  have hlt : ¬ PV.Lt v w := fun hc => hne ((PV.ltB_iff hv hw).mpr hc)
  unfold PV.Lt at hlt
  unfold PV.Le
  exact not_lt.mp hlt

lemma PV.le_of_ltB_eq_true {v w : PV} (hv : 0 < v.den) (hw : 0 < w.den)
    (h : PV.ltB v w = true) : PV.Le v w :=
  le_of_lt ((PV.ltB_iff hv hw).mp h)

lemma PV.Le.trans {u v w : PV} (h1 : PV.Le u v) (h2 : PV.Le v w) : PV.Le u w :=
  le_trans h1 h2

lemma corrcoef_def (ps : List (ℚ × ℚ)) :
    corrcoef ps =
      if varX ps = 0 ∨ varY ps = 0 then none else some ⟨covXY ps, varX ps * varY ps⟩ := rfl

lemma two_mul_sum_le (x : ℚ) (l : List ℚ) :
    2 * (x * l.sum) ≤ (l.length : ℚ) * (x * x) + (l.map (fun y => y * y)).sum := by
  induction l with
  | nil => simp
  | cons y ys ih =>
      simp only [List.sum_cons, List.map_cons, List.length_cons]
      push_cast
      nlinarith [ih, sq_nonneg (x - y)]

/-- Cauchy–Schwarz with the all-ones vector: `(Σx)² ≤ n·Σx²`. -/
lemma sum_sq_le (l : List ℚ) :
    l.sum * l.sum ≤ (l.length : ℚ) * (l.map (fun y => y * y)).sum := by
  induction l with
  | nil => simp
  | cons x xs ih =>
      simp only [List.sum_cons, List.map_cons, List.length_cons]
      push_cast
      nlinarith [ih, two_mul_sum_le x xs]

lemma varX_nonneg (ps : List (ℚ × ℚ)) : 0 ≤ varX ps := by
  have h := sum_sq_le (ps.map (fun p => p.1))
  rw [List.length_map, List.map_map,
    show ((fun y : ℚ => y * y) ∘ fun p : ℚ × ℚ => p.1) = fun p : ℚ × ℚ => p.1 * p.1 from
      rfl] at h
  unfold varX
  linarith

lemma varY_nonneg (ps : List (ℚ × ℚ)) : 0 ≤ varY ps := by
  have h := sum_sq_le (ps.map (fun p => p.2))
  rw [List.length_map, List.map_map,
    show ((fun y : ℚ => y * y) ∘ fun p : ℚ × ℚ => p.2) = fun p : ℚ × ℚ => p.2 * p.2 from
      rfl] at h
  unfold varY
  linarith

/-- A defined `corrcoef` output always represents a genuine real number:
its squared denominator is positive. -/
lemma corrcoef_den_pos {ps : List (ℚ × ℚ)} {v : PV} (h : corrcoef ps = some v) :
    0 < v.den := by
  rw [corrcoef_def] at h
  split_ifs at h with hc
  push_neg at hc
  cases h
  exact mul_pos (lt_of_le_of_ne (varX_nonneg ps) (Ne.symm hc.1))
    (lt_of_le_of_ne (varY_nonneg ps) (Ne.symm hc.2))

lemma corrcoef_swap (ps : List (ℚ × ℚ)) :
    corrcoef (ps.map (fun p => (p.2, p.1))) = corrcoef ps := by
  have hx : varX (ps.map (fun p => (p.2, p.1))) = varY ps := by
    unfold varX varY
    rw [List.length_map, List.map_map, List.map_map,
      show ((fun p : ℚ × ℚ => p.1 * p.1) ∘ fun p : ℚ × ℚ => (p.2, p.1)) =
        fun p : ℚ × ℚ => p.2 * p.2 from rfl,
      show ((fun p : ℚ × ℚ => p.1) ∘ fun p : ℚ × ℚ => (p.2, p.1)) =
        fun p : ℚ × ℚ => p.2 from rfl]
  have hy : varY (ps.map (fun p => (p.2, p.1))) = varX ps := by
    unfold varX varY
    rw [List.length_map, List.map_map, List.map_map,
      show ((fun p : ℚ × ℚ => p.2 * p.2) ∘ fun p : ℚ × ℚ => (p.2, p.1)) =
        fun p : ℚ × ℚ => p.1 * p.1 from rfl,
      show ((fun p : ℚ × ℚ => p.2) ∘ fun p : ℚ × ℚ => (p.2, p.1)) =
        fun p : ℚ × ℚ => p.1 from rfl]
  have hc : covXY (ps.map (fun p => (p.2, p.1))) = covXY ps := by
    unfold covXY
    rw [List.length_map, List.map_map, List.map_map, List.map_map,
      show ((fun p : ℚ × ℚ => p.1 * p.2) ∘ fun p : ℚ × ℚ => (p.2, p.1)) =
        fun p : ℚ × ℚ => p.2 * p.1 from rfl,
      show ((fun p : ℚ × ℚ => p.1) ∘ fun p : ℚ × ℚ => (p.2, p.1)) =
        fun p : ℚ × ℚ => p.2 from rfl,
      show ((fun p : ℚ × ℚ => p.2) ∘ fun p : ℚ × ℚ => (p.2, p.1)) =
        fun p : ℚ × ℚ => p.1 from rfl,
      show (ps.map (fun p => p.2 * p.1)) = ps.map (fun p => p.1 * p.2) from
        List.map_congr_left (fun a _ => mul_comm a.2 a.1)]
    ring
  rw [corrcoef_def, corrcoef_def, hx, hy, hc]
  by_cases h1 : varX ps = 0 <;> by_cases h2 : varY ps = 0 <;>
    simp [h1, h2, mul_comm]

lemma maskedPairs_nil_left (ys : List (Option ℚ)) : maskedPairs [] ys = [] := by
  simp [maskedPairs]

lemma maskedPairs_nil_right (xs : List (Option ℚ)) : maskedPairs xs [] = [] := by
  cases xs <;> simp [maskedPairs]

lemma maskedPairs_cons (x y : Option ℚ) (xs ys : List (Option ℚ)) :
    maskedPairs (x :: xs) (y :: ys) =
      (match x, y with
       | some a, some b => [(a, b)]
       | _, _ => []) ++ maskedPairs xs ys := by
  cases x <;> cases y <;> simp [maskedPairs]

lemma maskedPairs_swap (xs ys : List (Option ℚ)) :
    maskedPairs ys xs = (maskedPairs xs ys).map (fun p => (p.2, p.1)) := by
  induction xs generalizing ys with
  | nil => simp [maskedPairs_nil_left, maskedPairs_nil_right]
  | cons x xs ih =>
      cases ys with
      | nil => simp [maskedPairs_nil_left, maskedPairs_nil_right]
      | cons y ys =>
          rw [maskedPairs_cons, maskedPairs_cons, List.map_append, ih]
          cases x <;> cases y <;> simp

lemma maskedPairs_map_some (xs ys : List ℚ) :
    maskedPairs (xs.map some) (ys.map some) = xs.zip ys := by
  induction xs generalizing ys with
  | nil => simp [maskedPairs_nil_left]
  | cons x xs ih =>
      cases ys with
      | nil => simp [maskedPairs_nil_right]
      | cons y ys => simp [maskedPairs_cons, ih]

lemma cumReturnsAux_length (acc : Option ℚ) (rs : List (Option ℚ)) :
    (cumReturnsAux acc rs).length = rs.length := by
  induction rs generalizing acc with
  | nil => rfl
  | cons r rs ih => cases acc <;> cases r <;> simp [cumReturnsAux, ih]

lemma cumReturns_length (rs : List (Option ℚ)) : (cumReturns rs).length = rs.length :=
  cumReturnsAux_length (some 1) rs

lemma purePath_length (a : ℚ) (rs : List ℚ) : (purePath a rs).length = rs.length := by
  induction rs generalizing a with
  | nil => rfl
  | cons r rs ih => simp [purePath, ih]

lemma cumReturnsAux_map_some (a : ℚ) (rs : List ℚ) :
    cumReturnsAux (some a) (rs.map some) = (purePath a rs).map some := by
  induction rs generalizing a with
  | nil => rfl
  | cons r rs ih => simp [cumReturnsAux, purePath, ih]

/-- On a NaN-free slice the cumulative path is the fresh running product of
the slice's own gross returns: entry `i` is `a·∏_{j≤i}(1+rⱼ) − 1`. -/
lemma purePath_get (a : ℚ) (rs : List ℚ) (i : Nat) (h : i < (purePath a rs).length) :
    (purePath a rs).get ⟨i, h⟩ =
      a * ((rs.take (i + 1)).map (fun r => 1 + r)).prod - 1 := by
  induction rs generalizing a i with
  | nil => simp [purePath] at h
  | cons r rs ih =>
      cases i with
      | zero => simp [purePath]
      | succ n =>
          have h' : n < (purePath (a * (1 + r)) rs).length := by
            simpa [purePath] using h
          have := ih (a * (1 + r)) n h'
          simp only [purePath, List.get_cons_succ] at *
          rw [this, List.take_succ_cons, List.map_cons, List.prod_cons]
          ring

lemma sum_centered_sq (μ : ℚ) (l : List ℚ) :
    (l.map (fun x => (x - μ) * (x - μ))).sum =
      (l.map (fun x => x * x)).sum - 2 * μ * l.sum + (l.length : ℚ) * (μ * μ) := by
  induction l with
  | nil => simp
  | cons x xs ih =>
      simp only [List.sum_cons, List.map_cons, List.length_cons]
      push_cast
      linear_combination ih

lemma sum_pos_of_mem_pos {l : List ℚ} (hnn : ∀ x ∈ l, 0 ≤ x) {x : ℚ}
    (hx : x ∈ l) (hpos : 0 < x) : 0 < l.sum := by
  induction l with
  | nil => cases hx
  | cons a as ih =>
      rw [List.sum_cons]
      rcases List.mem_cons.mp hx with rfl | hx
      · have : (0 : ℚ) ≤ as.sum := List.sum_nonneg (fun y hy => hnn y (by simp [hy]))
        linarith
      · have ha : (0 : ℚ) ≤ a := hnn a (by simp)
        have := ih (fun y hy => hnn y (by simp [hy])) hx
        linarith

/-- A list with two distinct entries has strictly positive scaled variance
`n·Σx² − (Σx)²`. -/
lemma var_pos_of_get_ne {l : List ℚ} {i j : Fin l.length}
    (hne : l.get i ≠ l.get j) :
    0 < (l.length : ℚ) * (l.map (fun x => x * x)).sum - l.sum * l.sum := by
  have hlen : 0 < l.length := lt_of_le_of_lt (Nat.zero_le _) i.isLt
  have hn : (0 : ℚ) < (l.length : ℚ) := by exact_mod_cast hlen
  set μ : ℚ := l.sum / (l.length : ℚ) with hμdef
  have hμ : (l.length : ℚ) * μ = l.sum := by
    field_simp [hμdef]
  have hkey := sum_centered_sq μ l
  have hterm : ∃ x ∈ l, x ≠ μ := by
    by_contra hall
    push_neg at hall
    exact hne ((hall (l.get i) (List.get_mem l i.1 i.2)).trans
      (hall (l.get j) (List.get_mem l j.1 j.2)).symm)
  rcases hterm with ⟨x, hxl, hxne⟩
  have hpos : 0 < (l.map (fun x => (x - μ) * (x - μ))).sum := by
    have hxmem : (x - μ) * (x - μ) ∈ l.map (fun x => (x - μ) * (x - μ)) :=
      List.mem_map_of_mem _ hxl
    exact sum_pos_of_mem_pos
      (fun y hy => by
        rcases List.mem_map.mp hy with ⟨z, _, rfl⟩
        exact mul_self_nonneg _)
      hxmem (mul_self_pos.mpr (sub_ne_zero.mpr hxne))
  have h2 : (l.length : ℚ) * ((l.map (fun x => (x - μ) * (x - μ))).sum) =
      (l.length : ℚ) * (l.map (fun x => x * x)).sum - l.sum * l.sum := by
    linear_combination (l.length : ℚ) * hkey + ((l.length : ℚ) * μ - l.sum) * hμ
  rw [← h2]
  exact mul_pos hn hpos

/-- If every adjacent pair of a list is equal then all entries equal the
first one. -/
lemma get_eq_get_zero_of_adjacent_eq {l : List ℚ}
    (hadj : ∀ i : Nat, ∀ h : i + 1 < l.length,
      l.get ⟨i + 1, h⟩ = l.get ⟨i, Nat.lt_of_succ_lt h⟩) :
    ∀ i : Nat, ∀ h : i < l.length, l.get ⟨i, h⟩ = l.get ⟨0, Nat.lt_of_le_of_lt (Nat.zero_le _) h⟩ := by
  intro i
  induction i with
  | zero => intro h; rfl
  | succ n ih =>
      intro h
      rw [hadj n h]
      exact ih (Nat.lt_of_succ_lt h)

lemma mem_insertYearRow {x z : YearRow} (l : List YearRow) :
    z ∈ insertYearRow x l ↔ z = x ∨ z ∈ l := by
  induction l with
  | nil => simp [insertYearRow]
  | cons y ys ih =>
      unfold insertYearRow
      split_ifs with h
      · simp only [List.mem_cons, ih]
        tauto
      · simp [List.mem_cons]

lemma mem_sortYearRows {z : YearRow} (l : List YearRow) :
    z ∈ sortYearRows l ↔ z ∈ l := by
  induction l with
  | nil => simp [sortYearRows]
  | cons y ys ih =>
      show z ∈ insertYearRow y (sortYearRows ys) ↔ _
      rw [mem_insertYearRow, ih]
      simp [eq_comm]

lemma pairwise_insertYearRow {x : YearRow} {l : List YearRow}
    (hvx : 0 < x.correlation.den) (hvl : ∀ z ∈ l, 0 < z.correlation.den)
    (hp : l.Pairwise (fun a b => PV.Le b.correlation a.correlation)) :
    (insertYearRow x l).Pairwise (fun a b => PV.Le b.correlation a.correlation) := by
  induction l with
  | nil => simp [insertYearRow]
  | cons y ys ih =>
      rw [List.pairwise_cons] at hp
      unfold insertYearRow
      split_ifs with h
      · rw [List.pairwise_cons]
        refine ⟨fun z hz => ?_, ih (fun z hz => hvl z (by simp [hz])) hp.2⟩
        rcases (mem_insertYearRow ys).mp hz with rfl | hz
        · exact PV.le_of_ltB_eq_true hvx (hvl y (by simp)) h
        · exact hp.1 z hz
      · have hfalse : PV.ltB x.correlation y.correlation = false := by
          simpa using h
        rw [List.pairwise_cons]
        refine ⟨fun z hz => ?_, List.pairwise_cons.mpr hp⟩
        rcases List.mem_cons.mp hz with rfl | hz
        · exact PV.le_of_ltB_eq_false hvx (hvl z (by simp)) hfalse
        · exact PV.Le.trans (hp.1 z hz)
            (PV.le_of_ltB_eq_false hvx (hvl y (by simp)) hfalse)

lemma pairwise_sortYearRows {l : List YearRow}
    (hvl : ∀ z ∈ l, 0 < z.correlation.den) :
    (sortYearRows l).Pairwise (fun a b => PV.Le b.correlation a.correlation) := by
  induction l with
  | nil => simp [sortYearRows]
  | cons y ys ih =>
      show (insertYearRow y (sortYearRows ys)).Pairwise _
      exact pairwise_insertYearRow (hvl y (by simp))
        (fun z hz => hvl z (by simp [(mem_sortYearRows ys).mp hz]))
        (ih (fun z hz => hvl z (by simp [hz])))

lemma mem_insertQuarterRow {x z : QuarterRow} (l : List QuarterRow) :
    z ∈ insertQuarterRow x l ↔ z = x ∨ z ∈ l := by
  induction l with
  | nil => simp [insertQuarterRow]
  | cons y ys ih =>
      unfold insertQuarterRow
      split_ifs with h
      · simp only [List.mem_cons, ih]
        tauto
      · simp [List.mem_cons]

lemma mem_sortQuarterRows {z : QuarterRow} (l : List QuarterRow) :
    z ∈ sortQuarterRows l ↔ z ∈ l := by
  induction l with
  | nil => simp [sortQuarterRows]
  | cons y ys ih =>
      show z ∈ insertQuarterRow y (sortQuarterRows ys) ↔ _
      rw [mem_insertQuarterRow, ih]
      simp [eq_comm]

lemma pairwise_insertQuarterRow {x : QuarterRow} {l : List QuarterRow}
    (hvx : 0 < x.correlation.den) (hvl : ∀ z ∈ l, 0 < z.correlation.den)
    (hp : l.Pairwise (fun a b => PV.Le b.correlation a.correlation)) :
    (insertQuarterRow x l).Pairwise (fun a b => PV.Le b.correlation a.correlation) := by
  induction l with
  | nil => simp [insertQuarterRow]
  | cons y ys ih =>
      rw [List.pairwise_cons] at hp
      unfold insertQuarterRow
      split_ifs with h
      · rw [List.pairwise_cons]
        refine ⟨fun z hz => ?_, ih (fun z hz => hvl z (by simp [hz])) hp.2⟩
        rcases (mem_insertQuarterRow ys).mp hz with rfl | hz
        · exact PV.le_of_ltB_eq_true hvx (hvl y (by simp)) h
        · exact hp.1 z hz
      · have hfalse : PV.ltB x.correlation y.correlation = false := by
          simpa using h
        rw [List.pairwise_cons]
        refine ⟨fun z hz => ?_, List.pairwise_cons.mpr hp⟩
        rcases List.mem_cons.mp hz with rfl | hz
        · exact PV.le_of_ltB_eq_false hvx (hvl z (by simp)) hfalse
        · exact PV.Le.trans (hp.1 z hz)
            (PV.le_of_ltB_eq_false hvx (hvl y (by simp)) hfalse)

lemma pairwise_sortQuarterRows {l : List QuarterRow}
    (hvl : ∀ z ∈ l, 0 < z.correlation.den) :
    (sortQuarterRows l).Pairwise (fun a b => PV.Le b.correlation a.correlation) := by
  induction l with
  | nil => simp [sortQuarterRows]
  | cons y ys ih =>
      show (insertQuarterRow y (sortQuarterRows ys)).Pairwise _
      exact pairwise_insertQuarterRow (hvl y (by simp))
        (fun z hz => hvl z (by simp [(mem_sortQuarterRows ys).mp hz]))
        (ih (fun z hz => hvl z (by simp [hz])))

lemma yearEntry_year (m : PatternMatcher) (today : Today) (y : Int) (corr : PV) :
    (yearEntry m today y corr).year = y := by
  simp only [yearEntry]
  split <;> rfl

lemma yearEntry_correlation (m : PatternMatcher) (today : Today) (y : Int) (corr : PV) :
    (yearEntry m today y corr).correlation = corr := by
  simp only [yearEntry]
  split <;> rfl

lemma scoreYear_some {m : PatternMatcher} {today : Today} {ref : Int} {mc : ℚ} {y : Int}
    {row : YearRow} (h : scoreYear m today ref mc y = some row) :
    ∃ corr, calculate_ytd_correlation m today ref y = some corr ∧
      PV.geB corr mc = true ∧ row = yearEntry m today y corr := by
  unfold scoreYear at h
  rcases hc : calculate_ytd_correlation m today ref y with _ | corr <;> rw [hc] at h
  · simp at h
  · simp only [] at h
    split_ifs at h with hg
    exact ⟨corr, rfl, hg, (Option.some.inj h).symm⟩

lemma calculate_ytd_some {m : PatternMatcher} {today : Today} {y1 y2 : Int} {corr : PV}
    (h : calculate_ytd_correlation m today y1 y2 = some corr) :
    20 ≤ (ytdRows m.data y1 today).length ∧ 20 ≤ (ytdRows m.data y2 today).length ∧
      0 < corr.den := by
  simp only [calculate_ytd_correlation] at h
  split_ifs at h with h1 h2
  have hmin := not_lt.mp h1
  exact ⟨(le_min_iff.mp hmin).1, (le_min_iff.mp hmin).2, corrcoef_den_pos h⟩

lemma calculate_ytd_none_of_short {m : PatternMatcher} {today : Today} {y1 y2 : Int}
    (h : min (ytdRows m.data y1 today).length (ytdRows m.data y2 today).length < 20) :
    calculate_ytd_correlation m today y1 y2 = none := by
  simp only [calculate_ytd_correlation]
  rw [if_pos h]

lemma find_similar_years_mem {cfg : Config} {m : PatternMatcher} {today : Today}
    {ref : Int} {mc : ℚ} {row : YearRow}
    (h : row ∈ find_similar_years cfg m today ref mc) :
    ∃ y, y ∈ uniqueYears m.data ∧ y ≠ ref ∧ scoreYear m today ref mc y = some row := by
  simp only [find_similar_years] at h
  split_ifs at h with hempty
  · simp at h
  · have h1 := List.mem_of_mem_take h
    rw [mem_sortYearRows] at h1
    rcases List.mem_filterMap.mp h1 with ⟨y, hy, hscore⟩
    rcases List.mem_filter.mp hy with ⟨hy1, hy2⟩
    exact ⟨y, hy1, by simpa using hy2, hscore⟩

lemma quarterEntry_year (m : PatternMatcher) (y : Int) (q : Nat) (corr : PV) :
    (quarterEntry m y q corr).year = y := rfl

lemma quarterEntry_quarter (m : PatternMatcher) (y : Int) (q : Nat) (corr : PV) :
    (quarterEntry m y q corr).quarter = q := rfl

lemma quarterEntry_correlation (m : PatternMatcher) (y : Int) (q : Nat) (corr : PV) :
    (quarterEntry m y q corr).correlation = corr := rfl

lemma scoreQuarter_some {m : PatternMatcher} {ref : Int} {refq : Nat} {mc : ℚ}
    {y : Int} {q : Nat} {row : QuarterRow}
    (h : scoreQuarter m ref refq mc y q = some row) :
    ∃ corr, calculate_quarterly_correlation m ref refq y q = some corr ∧
      PV.geB corr mc = true ∧ row = quarterEntry m y q corr := by
  unfold scoreQuarter at h
  rcases hc : calculate_quarterly_correlation m ref refq y q with _ | corr <;> rw [hc] at h
  · simp at h
  · simp only [] at h
    split_ifs at h with hg
    exact ⟨corr, rfl, hg, (Option.some.inj h).symm⟩

lemma calculate_quarterly_some {m : PatternMatcher} {y1 : Int} {q1 : Nat} {y2 : Int}
    {q2 : Nat} {corr : PV}
    (h : calculate_quarterly_correlation m y1 q1 y2 q2 = some corr) :
    15 ≤ (get_quarter_data m y1 q1).length ∧ 15 ≤ (get_quarter_data m y2 q2).length ∧
      0 < corr.den := by
  simp only [calculate_quarterly_correlation] at h
  split_ifs at h with h1 h2
  push_neg at h1
  exact ⟨h1.1, h1.2, corrcoef_den_pos h⟩

lemma calculate_quarterly_none_of_short {m : PatternMatcher} {y1 : Int} {q1 : Nat}
    {y2 : Int} {q2 : Nat}
    (h : (get_quarter_data m y1 q1).length < 15 ∨ (get_quarter_data m y2 q2).length < 15) :
    calculate_quarterly_correlation m y1 q1 y2 q2 = none := by
  simp only [calculate_quarterly_correlation]
  rw [if_pos h]

lemma find_similar_quarters_mem {cfg : Config} {m : PatternMatcher} {ref : Int}
    {refq : Nat} {mc : ℚ} {row : QuarterRow}
    (h : row ∈ find_similar_quarters cfg m ref refq mc) :
    ∃ y q, y ∈ uniqueYears m.data ∧ q ∈ ([1, 2, 3, 4] : List Nat) ∧
      ¬(y = ref ∧ q = refq) ∧ scoreQuarter m ref refq mc y q = some row := by
  simp only [find_similar_quarters] at h
  split_ifs at h with hempty
  · simp at h
  · have h1 := List.mem_of_mem_take h
    rw [mem_sortQuarterRows] at h1
    rcases List.mem_flatten.mp h1 with ⟨chunk, hchunk, hrow⟩
    rcases List.mem_map.mp hchunk with ⟨y, hy, rfl⟩
    rcases List.mem_filterMap.mp hrow with ⟨q, hq, hscore⟩
    rcases List.mem_filter.mp hq with ⟨hq1, hq2⟩
    refine ⟨y, q, hy, hq1, ?_, hscore⟩
    intro hand
    rw [hand.1, hand.2] at hq2
    simp at hq2

/-- The YTD correlation is symmetric in its two year arguments. -/
lemma calculate_ytd_correlation_symm (m : PatternMatcher) (today : Today) (y1 y2 : Int) :
    calculate_ytd_correlation m today y1 y2 = calculate_ytd_correlation m today y2 y1 := by
  simp only [calculate_ytd_correlation]
  rw [min_comm (ytdRows m.data y2 today).length (ytdRows m.data y1 today).length]
  set ml := min (ytdRows m.data y1 today).length (ytdRows m.data y2 today).length with hml
  by_cases h : ml < 20
  · rw [if_pos h, if_pos h]
  · rw [if_neg h, if_neg h]
    rw [maskedPairs_swap (cumReturns ((List.map Row.returns (ytdRows m.data y1 today)).take ml))
      (cumReturns ((List.map Row.returns (ytdRows m.data y2 today)).take ml)),
      List.length_map, corrcoef_swap]

/-- The quarterly correlation is symmetric in its two (year, quarter)
arguments. -/
lemma calculate_quarterly_correlation_symm (m : PatternMatcher) (y1 : Int) (q1 : Nat)
    (y2 : Int) (q2 : Nat) :
    calculate_quarterly_correlation m y1 q1 y2 q2 =
      calculate_quarterly_correlation m y2 q2 y1 q1 := by
  simp only [calculate_quarterly_correlation]
  by_cases h : (get_quarter_data m y1 q1).length < 15 ∨ (get_quarter_data m y2 q2).length < 15
  · rw [if_pos h, if_pos (Or.symm h)]
  · rw [if_neg h, if_neg (fun hc => h (Or.symm hc))]
    rw [min_comm (get_quarter_data m y2 q2).length (get_quarter_data m y1 q1).length]
    set ml := min (get_quarter_data m y1 q1).length (get_quarter_data m y2 q2).length with hml
    rw [maskedPairs_swap (cumReturns ((List.map Row.returns (get_quarter_data m y1 q1)).take ml))
      (cumReturns ((List.map Row.returns (get_quarter_data m y2 q2)).take ml)),
      List.length_map, corrcoef_swap]

lemma filter_corrFields {p : Row → Bool}
    (hp : ∀ r s, corrFields r = corrFields s → p r = p s)
    {l l' : List Row} (h : l.map corrFields = l'.map corrFields) :
    (l.filter p).map corrFields = (l'.filter p).map corrFields := by
  induction l generalizing l' with
  | nil =>
      cases l' with
      | nil => rfl
      | cons b bs => simp at h
  | cons a as ih =>
      cases l' with
      | nil => simp at h
      | cons b bs =>
          simp only [List.map_cons, List.cons.injEq] at h
          have hpab : p a = p b := hp a b h.1
          simp only [List.filter_cons, ← hpab]
          by_cases hpa : p a = true
          · simp only [if_pos hpa, List.map_cons, h.1, ih h.2]
          · simp only [if_neg hpa]
            exact ih h.2

lemma corrFields_year {r s : Row} (h : corrFields r = corrFields s) : r.year = s.year := by
  unfold corrFields at h
  exact (Prod.mk.injEq _ _ _ _ ▸ h).1

lemma corrFields_rest {r s : Row} (h : corrFields r = corrFields s) :
    r.month = s.month ∧ r.day = s.day ∧ r.returns = s.returns := by
  unfold corrFields at h
  have h2 := (Prod.mk.injEq _ _ _ _ ▸ h).2
  have h3 := (Prod.mk.injEq _ _ _ _ ▸ h2).2
  exact ⟨(Prod.mk.injEq _ _ _ _ ▸ h2).1, (Prod.mk.injEq _ _ _ _ ▸ h3).1,
    (Prod.mk.injEq _ _ _ _ ▸ h3).2⟩

lemma ytdRows_corrFields {l l' : List Row} (h : l.map corrFields = l'.map corrFields)
    (y : Int) (today : Today) :
    (ytdRows l y today).map corrFields = (ytdRows l' y today).map corrFields := by
  unfold ytdRows yearRows
  apply filter_corrFields
  · intro r s hrs
    unfold ytdCutoff
    rcases corrFields_rest hrs with ⟨hm, hd, _⟩
    rw [hm, hd]
  · apply filter_corrFields
    · intro r s hrs
      rw [corrFields_year hrs]
    · exact h

lemma quarterRows_corrFields {l l' : List Row} (h : l.map corrFields = l'.map corrFields)
    (y : Int) (q : Nat) :
    ((l.filter (fun r => decide (r.year = y))).filter
        (fun r => decide (r.month ∈ quarter_months q))).map corrFields =
      ((l'.filter (fun r => decide (r.year = y))).filter
        (fun r => decide (r.month ∈ quarter_months q))).map corrFields := by
  apply filter_corrFields
  · intro r s hrs
    rcases corrFields_rest hrs with ⟨hm, _, _⟩
    rw [hm]
  · apply filter_corrFields
    · intro r s hrs
      rw [corrFields_year hrs]
    · exact h

lemma length_of_corrFields {l l' : List Row} (h : l.map corrFields = l'.map corrFields) :
    l.length = l'.length := by
  have := congrArg List.length h
  simpa using this

lemma returns_of_corrFields {l l' : List Row} (h : l.map corrFields = l'.map corrFields) :
    l.map Row.returns = l'.map Row.returns := by
  have := congrArg (List.map (fun t : Int × Nat × Nat × Option ℚ => t.2.2.2)) h
  simpa [List.map_map] using this

/-- The YTD correlation reads only the date index and the `returns`
column: any two data sets agreeing on those fields (with arbitrary
`adjusted_close` and `cum_returns` columns) give the same coefficient. -/
lemma calculate_ytd_correlation_fields {m m' : PatternMatcher} (today : Today)
    (y1 y2 : Int) (h : m.data.map corrFields = m'.data.map corrFields) :
    calculate_ytd_correlation m today y1 y2 = calculate_ytd_correlation m' today y1 y2 := by
  have e1 := ytdRows_corrFields h y1 today
  have e2 := ytdRows_corrFields h y2 today
  simp only [calculate_ytd_correlation, length_of_corrFields e1, length_of_corrFields e2,
    returns_of_corrFields e1, returns_of_corrFields e2]

/-- The quarterly correlation likewise reads only the date index and the
`returns` column. -/
lemma calculate_quarterly_correlation_fields {m m' : PatternMatcher}
    (y1 : Int) (q1 : Nat) (y2 : Int) (q2 : Nat)
    (h : m.data.map corrFields = m'.data.map corrFields) :
    calculate_quarterly_correlation m y1 q1 y2 q2 =
      calculate_quarterly_correlation m' y1 q1 y2 q2 := by
  have e1 := quarterRows_corrFields h y1 q1
  have e2 := quarterRows_corrFields h y2 q2
  simp only [calculate_quarterly_correlation, get_quarter_data, yearRows,
    length_of_corrFields e1, length_of_corrFields e2,
    returns_of_corrFields e1, returns_of_corrFields e2]

lemma zip_self (c : List ℚ) : c.zip c = c.map (fun x => (x, x)) := by
  induction c with
  | nil => rfl
  | cons x xs ih => simp [ih]

/-- The diagonal pair list has `varX = varY = covXY`, all equal to the
scaled variance of the path, and when that variance is nonzero the
self-correlation is exactly 1. -/
lemma corrcoef_self_pure {c : List ℚ}
    (hvar : 0 < (c.length : ℚ) * (c.map (fun x => x * x)).sum - c.sum * c.sum) :
    ∃ v, corrcoef (c.zip c) = some v ∧ PV.IsOne v ∧ 0 < v.den := by
  set V : ℚ := (c.length : ℚ) * (c.map (fun x => x * x)).sum - c.sum * c.sum with hV
  have hvx : varX (c.zip c) = V := by
    unfold varX
    rw [zip_self, List.length_map, List.map_map, List.map_map,
      show ((fun p : ℚ × ℚ => p.1 * p.1) ∘ fun x : ℚ => (x, x)) = fun x : ℚ => x * x from rfl,
      show ((fun p : ℚ × ℚ => p.1) ∘ fun x : ℚ => (x, x)) = fun x : ℚ => x from rfl,
      List.map_id']
  have hvy : varY (c.zip c) = V := by
    unfold varY
    rw [zip_self, List.length_map, List.map_map, List.map_map,
      show ((fun p : ℚ × ℚ => p.2 * p.2) ∘ fun x : ℚ => (x, x)) = fun x : ℚ => x * x from rfl,
      show ((fun p : ℚ × ℚ => p.2) ∘ fun x : ℚ => (x, x)) = fun x : ℚ => x from rfl,
      List.map_id']
  have hcov : covXY (c.zip c) = V := by
    unfold covXY
    rw [zip_self, List.length_map, List.map_map, List.map_map, List.map_map,
      show ((fun p : ℚ × ℚ => p.1 * p.2) ∘ fun x : ℚ => (x, x)) = fun x : ℚ => x * x from rfl,
      show ((fun p : ℚ × ℚ => p.1) ∘ fun x : ℚ => (x, x)) = fun x : ℚ => x from rfl,
      show ((fun p : ℚ × ℚ => p.2) ∘ fun x : ℚ => (x, x)) = fun x : ℚ => x from rfl,
      List.map_id']
  refine ⟨⟨V, V * V⟩, ?_, ?_, mul_pos hvar hvar⟩
  · rw [corrcoef_def, hvx, hvy, hcov, if_neg]
    push_neg
    exact ⟨ne_of_gt hvar, ne_of_gt hvar⟩
  · unfold PV.IsOne
    have hcast : ((V * V : ℚ) : ℝ) = (V : ℝ) ^ 2 := by push_cast; ring
    show (V : ℝ) / Real.sqrt ((V * V : ℚ) : ℝ) = 1
    rw [hcast, Real.sqrt_sq (by exact_mod_cast hvar.le)]
    exact div_self (by exact_mod_cast ne_of_gt hvar)

/-- A self-comparison of a fully defined YTD slice of length ≥ 20 reduces
to the Pearson coefficient of the fresh path paired with itself. -/
lemma calculate_ytd_self_eq {m : PatternMatcher} {today : Today} {y : Int} {rs : List ℚ}
    (h1 : (ytdRows m.data y today).map Row.returns = rs.map some)
    (h2 : 20 ≤ (ytdRows m.data y today).length) :
    calculate_ytd_correlation m today y y =
      corrcoef ((purePath 1 rs).zip (purePath 1 rs)) := by
  have hlen : rs.length = (ytdRows m.data y today).length := by
    have := congrArg List.length h1
    simp at this
    omega
  simp only [calculate_ytd_correlation]
  rw [min_self, if_neg (not_lt.mpr h2)]
  have htake : (List.map Row.returns (ytdRows m.data y today)).take
      (ytdRows m.data y today).length = rs.map some := by
    rw [h1]
    apply List.take_of_length_le
    simp [hlen]
  rw [htake,
    show cumReturns (rs.map some) = (purePath 1 rs).map some from cumReturnsAux_map_some 1 rs,
    maskedPairs_map_some, if_neg]
  rw [not_lt, List.length_zip, purePath_length, min_self, hlen]
  exact h2

/-- A self-comparison of a fully defined quarter extract of length ≥ 15
reduces to the Pearson coefficient of the fresh path with itself. -/
lemma calculate_quarterly_self_eq {m : PatternMatcher} {y : Int} {q : Nat} {rs : List ℚ}
    (h1 : (get_quarter_data m y q).map Row.returns = rs.map some)
    (h2 : 15 ≤ (get_quarter_data m y q).length) :
    calculate_quarterly_correlation m y q y q =
      corrcoef ((purePath 1 rs).zip (purePath 1 rs)) := by
  have hlen : rs.length = (get_quarter_data m y q).length := by
    have := congrArg List.length h1
    simp at this
    omega
  simp only [calculate_quarterly_correlation]
  rw [if_neg (by push_neg; exact ⟨h2, h2⟩ : ¬_)]
  rw [min_self]
  have htake : (List.map Row.returns (get_quarter_data m y q)).take
      (get_quarter_data m y q).length = rs.map some := by
    rw [h1]
    apply List.take_of_length_le
    simp [hlen]
  rw [htake,
    show cumReturns (rs.map some) = (purePath 1 rs).map some from cumReturnsAux_map_some 1 rs,
    maskedPairs_map_some, if_neg]
  rw [not_lt, List.length_zip, purePath_length, min_self, hlen]
  omega

/-- From the data-model invariants on a period extract — returns derived
from positive prices, defined first return — and a non-constant price
path, the fresh cumulative-return path of the extract has strictly
positive scaled variance. -/
lemma purePath_var_pos {d : List Row} {rs : List ℚ}
    (h1 : d.map Row.returns = rs.map some)
    (hcons : ∀ i : Nat, ∀ hi : i + 1 < d.length,
      (d.get ⟨i + 1, hi⟩).returns =
        some ((d.get ⟨i + 1, hi⟩).adjusted_close /
          (d.get ⟨i, Nat.lt_of_succ_lt hi⟩).adjusted_close - 1))
    (hpos : ∀ r ∈ d, 0 < r.adjusted_close)
    (hr0 : ∀ r0 : ℚ, rs.head? = some r0 → -1 < r0)
    (hnc : ∃ r ∈ d, ∃ s ∈ d, r.adjusted_close ≠ s.adjusted_close) :
    0 < ((purePath 1 rs).length : ℚ) * ((purePath 1 rs).map (fun x => x * x)).sum -
      (purePath 1 rs).sum * (purePath 1 rs).sum := by
  have hlen : rs.length = d.length := by
    have := congrArg List.length h1
    simp at this
    omega
  have hget : ∀ k : Nat, ∀ hk : k < d.length,
      (d.get ⟨k, hk⟩).returns = some (rs.get ⟨k, by rw [hlen]; exact hk⟩) := by
    intro k hk
    have hk1 : k < (d.map Row.returns).length := by simpa using hk
    have hmap := List.get_of_eq h1 ⟨k, hk1⟩
    rw [List.get_map] at hmap
    rw [hmap, List.get_map]
  have hr_all : ∀ k : Nat, ∀ hk : k < rs.length, -1 < rs.get ⟨k, hk⟩ := by
    intro k hk
    cases k with
    | zero =>
        apply hr0
        cases rs with
        | nil => simp at hk
        | cons a as => rfl
    | succ j =>
        have hj : j + 1 < d.length := by rw [← hlen]; exact hk
        have hc := hcons j hj
        rw [hget (j + 1) hj] at hc
        have heq := Option.some.inj hc
        rw [heq]
        have hpa : 0 < (d.get ⟨j + 1, hj⟩).adjusted_close :=
          hpos _ (List.get_mem d (j + 1) hj)
        have hpb : 0 < (d.get ⟨j, Nat.lt_of_succ_lt hj⟩).adjusted_close :=
          hpos _ (List.get_mem d j (Nat.lt_of_succ_lt hj))
        have := div_pos hpa hpb
        linarith
  have hadj : ∃ i : Nat, ∃ hi : i + 1 < rs.length, rs.get ⟨i + 1, hi⟩ ≠ 0 := by
    by_contra hall
    push_neg at hall
    have hPadj : ∀ i : Nat, ∀ h : i + 1 < (d.map Row.adjusted_close).length,
        (d.map Row.adjusted_close).get ⟨i + 1, h⟩ =
          (d.map Row.adjusted_close).get ⟨i, Nat.lt_of_succ_lt h⟩ := by
      intro i h
      have hd : i + 1 < d.length := by simpa using h
      have hrzero := hall i (by rw [hlen]; exact hd)
      have hc := hcons i hd
      rw [hget (i + 1) hd] at hc
      have heq := Option.some.inj hc
      rw [hrzero] at heq
      have hpb : 0 < (d.get ⟨i, Nat.lt_of_succ_lt hd⟩).adjusted_close :=
        hpos _ (List.get_mem d i (Nat.lt_of_succ_lt hd))
      have hdiv : (d.get ⟨i + 1, hd⟩).adjusted_close /
          (d.get ⟨i, Nat.lt_of_succ_lt hd⟩).adjusted_close = 1 := by linarith
      rw [div_eq_one_iff_eq (ne_of_gt hpb)] at hdiv
      rw [List.get_map, List.get_map]
      exact hdiv
    have hconst := get_eq_get_zero_of_adjacent_eq hPadj
    rcases hnc with ⟨r, hr, s, hs, hne⟩
    rcases List.mem_iff_get.mp hr with ⟨ir, rfl⟩
    rcases List.mem_iff_get.mp hs with ⟨is, rfl⟩
    apply hne
    have e1 : (d.get ir).adjusted_close =
        (d.map Row.adjusted_close).get ⟨ir.1, by simpa using ir.2⟩ := by
      rw [List.get_map]
    have e2 : (d.get is).adjusted_close =
        (d.map Row.adjusted_close).get ⟨is.1, by simpa using is.2⟩ := by
      rw [List.get_map]
    rw [e1, e2, hconst ir.1 (by simpa using ir.2), hconst is.1 (by simpa using is.2)]
  rcases hadj with ⟨i, hi, hne0⟩
  have hi1 : i + 1 < (purePath 1 rs).length := by rw [purePath_length]; exact hi
  have hc1 := purePath_get 1 rs (i + 1) hi1
  have hc0 := purePath_get 1 rs i (Nat.lt_of_succ_lt hi1)
  have hprod : ((rs.take (i + 1 + 1)).map (fun r => 1 + r)).prod =
      ((rs.take (i + 1)).map (fun r => 1 + r)).prod * (1 + rs.get ⟨i + 1, hi⟩) := by
    rw [List.take_succ, show rs[i + 1]? = some (rs.get ⟨i + 1, hi⟩) from by
      rw [List.getElem?_eq_getElem hi, List.get_eq_getElem],
      Option.toList_some, List.map_append, List.prod_append]
    simp
  have hApos : 0 < ((rs.take (i + 1)).map (fun r => 1 + r)).prod := by
    apply List.prod_pos
    intro x hx
    rcases List.mem_map.mp hx with ⟨r, hrmem, rfl⟩
    rcases List.mem_iff_get.mp (List.mem_of_mem_take hrmem) with ⟨k, rfl⟩
    have := hr_all k.1 k.2
    simp only [Fin.eta] at this
    linarith
  have hcne : (purePath 1 rs).get ⟨i + 1, hi1⟩ ≠
      (purePath 1 rs).get ⟨i, Nat.lt_of_succ_lt hi1⟩ := by
    rw [hc1, hc0, hprod]
    intro heq
    apply hne0
    have hA : ((rs.take (i + 1)).map (fun r => 1 + r)).prod * (1 + rs.get ⟨i + 1, hi⟩) =
        ((rs.take (i + 1)).map (fun r => 1 + r)).prod * 1 := by linarith
    have := mul_left_cancel₀ (ne_of_gt hApos) hA
    linarith
  exact var_pos_of_get_ne hcne

lemma scoreYear_current_year (d : List Row) (cy cy' : Int) (today : Today)
    (ref : Int) (mc : ℚ) (y : Int) :
    scoreYear ⟨d, cy⟩ today ref mc y = scoreYear ⟨d, cy'⟩ today ref mc y := by
  simp only [scoreYear, calculate_ytd_correlation, yearEntry, get_ytd_return,
    ytdRows, yearRows]

lemma scoreQuarter_current_year (d : List Row) (cy cy' : Int) (ref : Int)
    (refq : Nat) (mc : ℚ) (y : Int) (q : Nat) :
    scoreQuarter ⟨d, cy⟩ ref refq mc y q = scoreQuarter ⟨d, cy'⟩ ref refq mc y q := by
  simp only [scoreQuarter, calculate_quarterly_correlation, quarterEntry,
    get_quarter_return, get_quarter_data, yearRows]

/-- Frame lemma: `find_similar_years` reads, of the matcher and configuration state,
only the data column values, the clock cutoff, the reference year, the
threshold and `Config.TOP_N_SIMILAR`; the stored `current_year` and every
other `Config` attribute are irrelevant. -/
lemma find_similar_years_frame (cfg cfg' : Config) (m m' : PatternMatcher)
    (today : Today) (ref : Int) (mc : ℚ)
    (hdata : m.data = m'.data) (htop : cfg.TOP_N_SIMILAR = cfg'.TOP_N_SIMILAR) :
    find_similar_years cfg m today ref mc = find_similar_years cfg' m' today ref mc := by
  cases m with
  | mk d cy =>
      cases m' with
      | mk d' cy' =>
          have hd : d = d' := hdata
          subst hd
          have hscore : scoreYear ⟨d, cy⟩ today ref mc = scoreYear ⟨d, cy'⟩ today ref mc :=
            funext (fun y => scoreYear_current_year d cy cy' today ref mc y)
          simp only [find_similar_years, uniqueYears, ytdRows, yearRows, htop, hscore]

/-- Frame lemma: `find_similar_quarters` likewise depends only on the data column
values, the reference pair, the threshold and `Config.TOP_N_SIMILAR`
(and, unlike the year scan, not on the clock at all). -/
lemma find_similar_quarters_frame (cfg cfg' : Config) (m m' : PatternMatcher)
    (ref : Int) (refq : Nat) (mc : ℚ)
    (hdata : m.data = m'.data) (htop : cfg.TOP_N_SIMILAR = cfg'.TOP_N_SIMILAR) :
    find_similar_quarters cfg m ref refq mc = find_similar_quarters cfg' m' ref refq mc := by
  cases m with
  | mk d cy =>
      cases m' with
      | mk d' cy' =>
          have hd : d = d' := hdata
          subst hd
          have hscore : ∀ y : Int, scoreQuarter ⟨d, cy⟩ ref refq mc y =
              scoreQuarter ⟨d, cy'⟩ ref refq mc y :=
            fun y => funext (fun q => scoreQuarter_current_year d cy cy' ref refq mc y q)
          simp only [find_similar_quarters, uniqueYears, yearRows, htop, hscore]

lemma wYtd_eval : ytdRows wMatcher.data 2010 wToday = wYear 2010 := by decide

lemma wYtd_eval' : ytdRows wMatcher.data 2024 wToday = wYear 2024 := by decide

lemma wCalc_eval : calculate_ytd_correlation wMatcher wToday 2024 2010 = some ⟨20, 400⟩ := by
  simp only [calculate_ytd_correlation, wYtd_eval, wYtd_eval']
  norm_num [wYear, wRow, cumReturns, cumReturnsAux, maskedPairs, corrcoef, List.zip,
    List.filterMap_cons, List.filterMap_nil]

lemma wGeB_eval : PV.geB ⟨20, 400⟩ (7 / 10) = true := by
  norm_num [PV.geB]

lemma wYtdRet_eval : get_ytd_return wMatcher 2010 1 25 = some 0 := by
  simp only [get_ytd_return]
  rw [show (yearRows wMatcher.data 2010).filter
      (fun r => decide (r.month < 1 ∨ (r.month = 1 ∧ r.day ≤ 25))) = wYear 2010 from by
        decide]
  norm_num [wYear, wRow]

lemma wScore_eval : scoreYear wMatcher wToday 2024 (7 / 10) 2010 =
    some ⟨2010, ⟨20, 400⟩, some 0, some 0⟩ := by
  simp only [scoreYear, wCalc_eval, wGeB_eval, if_true, yearEntry]
  rw [show yearRows wMatcher.data 2010 = wYear 2010 from by decide]
  norm_num [wYear, wRow, wYtdRet_eval, wToday]

lemma wFind_eval : find_similar_years wConfig wMatcher wToday 2024 (7 / 10) =
    [⟨2010, ⟨20, 400⟩, some 0, some 0⟩] := by
  simp only [find_similar_years]
  rw [show uniqueYears wMatcher.data = [2010, 2024] from by decide,
    show ([2010, 2024] : List Int).filter (fun y => decide (y ≠ 2024)) = [2010] from by
      decide]
  simp only [List.filterMap_cons, List.filterMap_nil, wScore_eval]
  norm_num [sortYearRows, insertYearRow, wConfig]

lemma wFind2_eval : find_similar_years wConfig wMatcher wToday2 2024 (7 / 10) = [] := by
  simp only [find_similar_years]
  rw [show uniqueYears wMatcher.data = [2010, 2024] from by decide,
    show ([2010, 2024] : List Int).filter (fun y => decide (y ≠ 2024)) = [2010] from by
      decide]
  have hshort : calculate_ytd_correlation wMatcher wToday2 2024 2010 = none :=
    calculate_ytd_none_of_short (by decide)
  simp only [List.filterMap_cons, List.filterMap_nil, scoreYear, hshort]
  norm_num

lemma wQData_eval : get_quarter_data wMatcher 2010 1 = wYear 2010 := by decide

lemma wQData_eval' : get_quarter_data wMatcher 2024 1 = wYear 2024 := by decide

lemma wQCalc_eval : calculate_quarterly_correlation wMatcher 2024 1 2010 1 =
    some ⟨20, 400⟩ := by
  simp only [calculate_quarterly_correlation, wQData_eval, wQData_eval']
  norm_num [wYear, wRow, cumReturns, cumReturnsAux, maskedPairs, corrcoef, List.zip,
    List.filterMap_cons, List.filterMap_nil]

lemma wQRet_eval : get_quarter_return wMatcher 2010 1 = some 0 := by
  simp only [get_quarter_return, wQData_eval]
  norm_num [wYear, wRow]

lemma wQEntry_eval : quarterEntry wMatcher 2010 1 ⟨20, 400⟩ = wQRow := by
  simp only [quarterEntry, wQRet_eval, wQRow, QuarterRow.mk.injEq, and_true, true_and]
  decide

lemma wQScore_eval : scoreQuarter wMatcher 2024 1 (7 / 10) 2010 1 = some wQRow := by
  simp only [scoreQuarter, wQCalc_eval, wGeB_eval, if_true, wQEntry_eval]

lemma wQScoreNone (q : Nat) (h : (get_quarter_data wMatcher 2010 q).length < 15) :
    scoreQuarter wMatcher 2024 1 (7 / 10) 2010 q = none := by
  simp only [scoreQuarter, calculate_quarterly_none_of_short (Or.inr h)]

lemma wQScoreNone24 (q : Nat) (h : (get_quarter_data wMatcher 2024 q).length < 15) :
    scoreQuarter wMatcher 2024 1 (7 / 10) 2024 q = none := by
  simp only [scoreQuarter, calculate_quarterly_none_of_short (Or.inr h)]

lemma wQFind_eval : find_similar_quarters wConfig wMatcher 2024 1 (7 / 10) = [wQRow] := by
  simp only [find_similar_quarters]
  rw [show uniqueYears wMatcher.data = [2010, 2024] from by decide]
  simp only [List.map_cons, List.map_nil]
  norm_num [List.filter_cons, List.filter_nil]
  simp only [List.filterMap_cons, List.filterMap_nil, wQScore_eval,
    wQScoreNone 2 (by decide), wQScoreNone 3 (by decide), wQScoreNone 4 (by decide),
    wQScoreNone24 2 (by decide), wQScoreNone24 3 (by decide), wQScoreNone24 4 (by decide)]
  norm_num [sortQuarterRows, insertQuarterRow, wConfig]
  simp

lemma vYtd_eval : ytdRows vMatcher.data 2020 wToday = vData := rfl

lemma vQ_eval : get_quarter_data vMatcher 2020 1 = vData := rfl

lemma vReturns_eval : vData.map Row.returns = vRs.map some := rfl

lemma scoreYear_den_pos {m : PatternMatcher} {today : Today} {ref : Int} {mc : ℚ}
    {y : Int} {row : YearRow} (h : scoreYear m today ref mc y = some row) :
    0 < row.correlation.den := by
  rcases scoreYear_some h with ⟨corr, hc, _, rfl⟩
  rw [yearEntry_correlation]
  exact (calculate_ytd_some hc).2.2

lemma scoreQuarter_den_pos {m : PatternMatcher} {ref : Int} {refq : Nat} {mc : ℚ}
    {y : Int} {q : Nat} {row : QuarterRow} (h : scoreQuarter m ref refq mc y q = some row) :
    0 < row.correlation.den := by
  rcases scoreQuarter_some h with ⟨corr, hc, _, rfl⟩
  rw [quarterEntry_correlation]
  exact (calculate_quarterly_some hc).2.2

/-- C7: For every reference period and every input, the reference period
itself is never present in its own similarity results: `find_similar_years`
never returns a row whose year equals the reference year, and
`find_similar_quarters` never returns a row whose (year, quarter) pair
equals the exact reference pair. -/
theorem c7_reference_period_excluded :
    (∀ (cfg : Config) (m : PatternMatcher) (today : Today) (ref : Int) (mc : ℚ),
      ∀ row ∈ find_similar_years cfg m today ref mc, row.year ≠ ref) ∧
    (∀ (cfg : Config) (m : PatternMatcher) (ref : Int) (refq : Nat) (mc : ℚ),
      ∀ row ∈ find_similar_quarters cfg m ref refq mc,
        ¬(row.year = ref ∧ row.quarter = refq)) := by
  constructor
  · intro cfg m today ref mc row hrow
    rcases find_similar_years_mem hrow with ⟨y, _, hyne, hscore⟩
    rcases scoreYear_some hscore with ⟨corr, _, _, hrow_eq⟩
    rw [hrow_eq, yearEntry_year]
    exact hyne
  · intro cfg m ref refq mc row hrow
    rcases find_similar_quarters_mem hrow with ⟨y, q, _, _, hne, hscore⟩
    rcases scoreQuarter_some hscore with ⟨corr, _, _, hrow_eq⟩
    rw [hrow_eq, quarterEntry_year, quarterEntry_quarter]
    exact hne

/-- Witness for C7 at the concrete series: the single returned year row is
not the reference year 2024, and the single returned quarter row is not
the reference pair (2024, Q1). -/
theorem c7_witness :
    (⟨2010, ⟨20, 400⟩, some 0, some 0⟩ : YearRow).year ≠ 2024 ∧
    ¬(wQRow.year = 2024 ∧ wQRow.quarter = 1) := by
  constructor
  · exact c7_reference_period_excluded.1 wConfig wMatcher wToday 2024 (7 / 10)
      ⟨2010, ⟨20, 400⟩, some 0, some 0⟩ (by rw [wFind_eval]; simp)
  · exact c7_reference_period_excluded.2 wConfig wMatcher 2024 1 (7 / 10) wQRow
      (by rw [wQFind_eval]; simp)

/-- C2: the correlation is NaN whenever the shorter of the two extracted
sub-series has fewer observations than the period's minimum-length
threshold (20 for years, 15 for quarters), and consequently a period
below its threshold never appears in any ranking result, for any
threshold value. -/
theorem c2_minimum_length_exclusion :
    (∀ (m : PatternMatcher) (today : Today) (y1 y2 : Int),
      min (ytdRows m.data y1 today).length (ytdRows m.data y2 today).length < 20 →
      calculate_ytd_correlation m today y1 y2 = none) ∧
    (∀ (m : PatternMatcher) (y1 : Int) (q1 : Nat) (y2 : Int) (q2 : Nat),
      min (get_quarter_data m y1 q1).length (get_quarter_data m y2 q2).length < 15 →
      calculate_quarterly_correlation m y1 q1 y2 q2 = none) ∧
    (∀ (cfg : Config) (m : PatternMatcher) (today : Today) (ref : Int) (mc : ℚ) (y : Int),
      (ytdRows m.data y today).length < 20 →
      ∀ row ∈ find_similar_years cfg m today ref mc, row.year ≠ y) ∧
    (∀ (cfg : Config) (m : PatternMatcher) (ref : Int) (refq : Nat) (mc : ℚ)
      (y : Int) (q : Nat), (get_quarter_data m y q).length < 15 →
      ∀ row ∈ find_similar_quarters cfg m ref refq mc,
        ¬(row.year = y ∧ row.quarter = q)) := by
  refine ⟨fun m today y1 y2 h => calculate_ytd_none_of_short h,
    fun m y1 q1 y2 q2 h => calculate_quarterly_none_of_short (min_lt_iff.mp h),
    ?_, ?_⟩
  · intro cfg m today ref mc y hshort row hrow
    rcases find_similar_years_mem hrow with ⟨y', _, _, hscore⟩
    rcases scoreYear_some hscore with ⟨corr, hcalc, _, hrow_eq⟩
    have h20 := (calculate_ytd_some hcalc).2.1
    rw [hrow_eq, yearEntry_year]
    intro heq
    rw [heq] at h20
    omega
  · intro cfg m ref refq mc y q hshort row hrow
    rcases find_similar_quarters_mem hrow with ⟨y', q', _, _, _, hscore⟩
    rcases scoreQuarter_some hscore with ⟨corr, hcalc, _, hrow_eq⟩
    have h15 := (calculate_quarterly_some hcalc).2.1
    rw [hrow_eq]
    intro heq
    rw [quarterEntry_year] at heq
    rw [quarterEntry_quarter] at heq
    rw [heq.1, heq.2] at h15
    omega

/-- Witness for C2 at concrete inputs: an 18-observation window makes
the year correlation NaN, empty quarters make the quarter correlation
NaN, and the short periods 2030 and (2010, Q2) are absent from the
respective rankings. -/
theorem c2_witness :
    calculate_ytd_correlation wMatcher wToday2 2024 2010 = none ∧
    calculate_quarterly_correlation wMatcher 2024 2 2010 2 = none ∧
    (⟨2010, ⟨20, 400⟩, some 0, some 0⟩ : YearRow).year ≠ 2030 ∧
    ¬(wQRow.year = 2010 ∧ wQRow.quarter = 2) := by
  refine ⟨c2_minimum_length_exclusion.1 wMatcher wToday2 2024 2010 (by decide),
    c2_minimum_length_exclusion.2.1 wMatcher 2024 2 2010 2 (by decide),
    c2_minimum_length_exclusion.2.2.1 wConfig wMatcher wToday 2024 (7 / 10) 2030
      (by decide) ⟨2010, ⟨20, 400⟩, some 0, some 0⟩ (by rw [wFind_eval]; simp),
    c2_minimum_length_exclusion.2.2.2 wConfig wMatcher 2024 1 (7 / 10) 2010 2
      (by decide) wQRow (by rw [wQFind_eval]; simp)⟩

/-- C1: in both ranking scans, every returned row carries a defined
coefficient that is at least `min_correlation`, and the coefficients are
in non-increasing order along the returned list. -/
theorem c1_threshold_and_descending_order :
    (∀ (cfg : Config) (m : PatternMatcher) (today : Today) (ref : Int) (mc : ℚ),
      (∀ row ∈ find_similar_years cfg m today ref mc,
        0 < row.correlation.den ∧ PV.AtLeast row.correlation mc) ∧
      (find_similar_years cfg m today ref mc).Pairwise
        (fun a b => PV.Le b.correlation a.correlation)) ∧
    (∀ (cfg : Config) (m : PatternMatcher) (ref : Int) (refq : Nat) (mc : ℚ),
      (∀ row ∈ find_similar_quarters cfg m ref refq mc,
        0 < row.correlation.den ∧ PV.AtLeast row.correlation mc) ∧
      (find_similar_quarters cfg m ref refq mc).Pairwise
        (fun a b => PV.Le b.correlation a.correlation)) := by
  constructor
  · intro cfg m today ref mc
    constructor
    · intro row hrow
      rcases find_similar_years_mem hrow with ⟨y, _, _, hscore⟩
      have hden := scoreYear_den_pos hscore
      rcases scoreYear_some hscore with ⟨corr, hcalc, hge, hrow_eq⟩
      refine ⟨hden, ?_⟩
      have hcorr : row.correlation = corr := by rw [hrow_eq, yearEntry_correlation]
      rw [hcorr]
      rw [hcorr] at hden
      exact (PV.geB_iff hden).mp hge
    · simp only [find_similar_years]
      split_ifs with hempty
      · exact List.Pairwise.nil
      · refine List.Pairwise.sublist (List.take_sublist _ _) (pairwise_sortYearRows ?_)
        intro z hz
        rcases List.mem_filterMap.mp hz with ⟨y, _, hscore⟩
        exact scoreYear_den_pos hscore
  · intro cfg m ref refq mc
    constructor
    · intro row hrow
      rcases find_similar_quarters_mem hrow with ⟨y, q, _, _, _, hscore⟩
      have hden := scoreQuarter_den_pos hscore
      rcases scoreQuarter_some hscore with ⟨corr, hcalc, hge, hrow_eq⟩
      refine ⟨hden, ?_⟩
      have hcorr : row.correlation = corr := by rw [hrow_eq, quarterEntry_correlation]
      rw [hcorr]
      rw [hcorr] at hden
      exact (PV.geB_iff hden).mp hge
    · simp only [find_similar_quarters]
      split_ifs with hempty
      · exact List.Pairwise.nil
      · refine List.Pairwise.sublist (List.take_sublist _ _) (pairwise_sortQuarterRows ?_)
        intro z hz
        rcases List.mem_flatten.mp hz with ⟨chunk, hchunk, hzc⟩
        rcases List.mem_map.mp hchunk with ⟨y, _, rfl⟩
        rcases List.mem_filterMap.mp hzc with ⟨q, _, hscore⟩
        exact scoreQuarter_den_pos hscore

/-- Witness for C1 at the concrete series: the single returned rows of
both scans carry defined coefficients at least 0.70. -/
theorem c1_witness :
    (0 < (⟨2010, ⟨20, 400⟩, some 0, some 0⟩ : YearRow).correlation.den ∧
      PV.AtLeast (⟨2010, ⟨20, 400⟩, some 0, some 0⟩ : YearRow).correlation (7 / 10)) ∧
    (0 < wQRow.correlation.den ∧ PV.AtLeast wQRow.correlation (7 / 10)) := by
  constructor
  · exact (c1_threshold_and_descending_order.1 wConfig wMatcher wToday 2024 (7 / 10)).1
      ⟨2010, ⟨20, 400⟩, some 0, some 0⟩ (by rw [wFind_eval]; simp)
  · exact (c1_threshold_and_descending_order.2 wConfig wMatcher 2024 1 (7 / 10)).1
      wQRow (by rw [wQFind_eval]; simp)

/-- C8: an undefined correlation for one candidate silently removes just
that candidate: its loop iteration appends nothing, and the list built by
scanning any candidate sequence containing it equals the list built
without it — the scan never aborts and the other candidates are
unaffected. -/
theorem c8_per_candidate_failure_isolated :
    (∀ (m : PatternMatcher) (today : Today) (ref : Int) (mc : ℚ) (y : Int)
      (l1 l2 : List Int), calculate_ytd_correlation m today ref y = none →
      scoreYear m today ref mc y = none ∧
      (l1 ++ y :: l2).filterMap (scoreYear m today ref mc) =
        (l1 ++ l2).filterMap (scoreYear m today ref mc)) ∧
    (∀ (m : PatternMatcher) (ref : Int) (refq : Nat) (mc : ℚ) (y : Int) (q : Nat)
      (l1 l2 : List Nat), calculate_quarterly_correlation m ref refq y q = none →
      scoreQuarter m ref refq mc y q = none ∧
      (l1 ++ q :: l2).filterMap (scoreQuarter m ref refq mc y) =
        (l1 ++ l2).filterMap (scoreQuarter m ref refq mc y)) := by
  constructor
  · intro m today ref mc y l1 l2 hnone
    have hs : scoreYear m today ref mc y = none := by
      simp only [scoreYear, hnone]
    exact ⟨hs, by simp [List.filterMap_append, List.filterMap_cons, hs]⟩
  · intro m ref refq mc y q l1 l2 hnone
    have hs : scoreQuarter m ref refq mc y q = none := by
      simp only [scoreQuarter, hnone]
    exact ⟨hs, by simp [List.filterMap_append, List.filterMap_cons, hs]⟩

/-- Witness for C8: the data-less candidate year 2030 (and quarter
(2010, Q2)) contribute nothing and removing them from the scanned
sequence leaves the built list unchanged. -/
theorem c8_witness :
    (scoreYear wMatcher wToday 2024 (7 / 10) 2030 = none ∧
      ([2010] ++ 2030 :: [2024]).filterMap (scoreYear wMatcher wToday 2024 (7 / 10)) =
        ([2010] ++ [2024]).filterMap (scoreYear wMatcher wToday 2024 (7 / 10))) ∧
    (scoreQuarter wMatcher 2024 1 (7 / 10) 2010 2 = none ∧
      ([1] ++ 2 :: [3]).filterMap (scoreQuarter wMatcher 2024 1 (7 / 10) 2010) =
        ([1] ++ [3]).filterMap (scoreQuarter wMatcher 2024 1 (7 / 10) 2010)) := by
  constructor
  · exact c8_per_candidate_failure_isolated.1 wMatcher wToday 2024 (7 / 10) 2030
      [2010] [2024] (calculate_ytd_none_of_short (by decide))
  · exact c8_per_candidate_failure_isolated.2 wMatcher 2024 1 (7 / 10) 2010 2
      [1] [3] (calculate_quarterly_none_of_short (Or.inr (by decide)))

/-- C3 counterexample: on the empty series the constructor raises
`ValueError("DataFrame vuoto")` — the analysis cannot even start, so the
call fails instead of reporting an empty result set. -/
theorem c3_counterexample :
    patternMatcherInit [] 2025 = Except.error ("DataFrame vuoto") := rfl

/-- C3 (amended): an empty series makes `PatternMatcher.__init__` raise
`ValueError("DataFrame vuoto")` (a fatal error the caller must guard);
for a non-empty series the matcher is constructed, and whenever the
reference period cannot be extracted both scans return an empty result
set rather than failing. -/
theorem c3_empty_input_behavior :
    (∀ (data : List Row) (nowYear : Int),
      (data = [] → patternMatcherInit data nowYear = Except.error ("DataFrame vuoto")) ∧
      (data ≠ [] → patternMatcherInit data nowYear = Except.ok ⟨data, nowYear⟩)) ∧
    (∀ (cfg : Config) (m : PatternMatcher) (today : Today) (ref : Int) (mc : ℚ),
      yearRows m.data ref = [] → find_similar_years cfg m today ref mc = []) ∧
    (∀ (cfg : Config) (m : PatternMatcher) (ref : Int) (refq : Nat) (mc : ℚ),
      get_quarter_data m ref refq = [] → find_similar_quarters cfg m ref refq mc = []) := by
  refine ⟨?_, ?_, ?_⟩
  · intro data nowYear
    constructor
    · intro h
      simp [patternMatcherInit, h]
    · intro h
      simp [patternMatcherInit, h]
  · intro cfg m today ref mc h
    have hytd : ytdRows m.data ref today = [] := by
      unfold ytdRows
      rw [h]
      rfl
    have hscore : ∀ y : Int, scoreYear m today ref mc y = none := by
      intro y
      have hcalc : calculate_ytd_correlation m today ref y = none := by
        apply calculate_ytd_none_of_short
        rw [hytd]
        simp
      simp only [scoreYear, hcalc]
    simp only [find_similar_years, List.filterMap_eq_nil.mpr (fun y _ => hscore y)]
    simp
  · intro cfg m ref refq mc h
    have hscore : ∀ (y : Int) (q : Nat), scoreQuarter m ref refq mc y q = none := by
      intro y q
      have hcalc : calculate_quarterly_correlation m ref refq y q = none := by
        apply calculate_quarterly_none_of_short
        left
        rw [h]
        simp
      simp only [scoreQuarter, hcalc]
    have hflat : ((uniqueYears m.data).map (fun y =>
        (([1, 2, 3, 4] : List Nat).filter
            (fun q => decide (¬(y = ref ∧ q = refq)))).filterMap
          (scoreQuarter m ref refq mc y))).flatten = [] := by
      rw [List.flatten_eq_nil_iff]
      intro chunk hchunk
      rcases List.mem_map.mp hchunk with ⟨y, _, rfl⟩
      exact List.filterMap_eq_nil.mpr (fun q _ => hscore y q)
    simp only [find_similar_quarters, hflat]
    simp

/-- Witness for C3 (amended) at concrete inputs: empty series error,
successful construction on the witness series, and empty results for the
absent reference year 1999 / quarter (1999, Q1). -/
theorem c3_witness :
    patternMatcherInit ([] : List Row) 2025 = Except.error ("DataFrame vuoto") ∧
    patternMatcherInit wData 2024 = Except.ok wMatcher ∧
    find_similar_years wConfig wMatcher wToday 1999 (7 / 10) = [] ∧
    find_similar_quarters wConfig wMatcher 1999 1 (7 / 10) = [] := by
  refine ⟨(c3_empty_input_behavior.1 [] 2025).1 rfl,
    (c3_empty_input_behavior.1 wData 2024).2 (by simp [wData, wYear]),
    c3_empty_input_behavior.2.1 wConfig wMatcher wToday 1999 (7 / 10) (by decide),
    c3_empty_input_behavior.2.2 wConfig wMatcher 1999 1 (7 / 10) (by decide)⟩

/-- C4 counterexample: with all four claimed inputs (series, reference
period, threshold, topN) held fixed, the year scan's result changes when
only the host clock's date changes, so the call is not a pure function of
those four inputs alone. -/
theorem c4_counterexample :
    find_similar_years wConfig wMatcher wToday 2024 (7 / 10) ≠
      find_similar_years wConfig wMatcher wToday2 2024 (7 / 10) := by
  rw [wFind_eval, wFind2_eval]
  simp

/-- C4 (amended): each scan is a pure function of (series data, reference
period, threshold, `TOP_N_SIMILAR`) plus — for the year scan only — the
host clock's month/day used as the YTD cutoff; no other matcher state
(`current_year`) or configuration attribute influences the result, and
the quarter scan does not read the clock at all. -/
theorem c4_purity_given_asof_date :
    (∀ (cfg cfg' : Config) (m m' : PatternMatcher) (today : Today) (ref : Int) (mc : ℚ),
      m.data = m'.data → cfg.TOP_N_SIMILAR = cfg'.TOP_N_SIMILAR →
      find_similar_years cfg m today ref mc = find_similar_years cfg' m' today ref mc) ∧
    (∀ (cfg cfg' : Config) (m m' : PatternMatcher) (ref : Int) (refq : Nat) (mc : ℚ),
      m.data = m'.data → cfg.TOP_N_SIMILAR = cfg'.TOP_N_SIMILAR →
      find_similar_quarters cfg m ref refq mc = find_similar_quarters cfg' m' ref refq mc) :=
  ⟨fun cfg cfg' m m' today ref mc h1 h2 =>
      find_similar_years_frame cfg cfg' m m' today ref mc h1 h2,
    fun cfg cfg' m m' ref refq mc h1 h2 =>
      find_similar_quarters_frame cfg cfg' m m' ref refq mc h1 h2⟩

/-- Witness for C4 (amended): changing every irrelevant configuration
attribute and the stored `current_year` leaves both scans' results
unchanged. -/
theorem c4_witness :
    find_similar_years wConfig wMatcher wToday 2024 (7 / 10) =
      find_similar_years wConfigAlt wMatcherAlt wToday 2024 (7 / 10) ∧
    find_similar_quarters wConfig wMatcher 2024 1 (7 / 10) =
      find_similar_quarters wConfigAlt wMatcherAlt 2024 1 (7 / 10) :=
  ⟨c4_purity_given_asof_date.1 wConfig wConfigAlt wMatcher wMatcherAlt wToday 2024 (7 / 10)
      rfl rfl,
    c4_purity_given_asof_date.2 wConfig wConfigAlt wMatcher wMatcherAlt 2024 1 (7 / 10)
      rfl rfl⟩

/-- C6: both correlation primitives read only the date index and the
`returns` column (so the stored `cum_returns` accumulated from the series
start — and the price column — cannot influence the coefficient), and the
recomputed path over the truncated slice is the fresh running product of
the slice's own returns: entry `i` is `∏_{j≤i}(1+rⱼ) − 1`, with the empty
prefix — the path's starting point — at exactly 0. -/
theorem c6_path_recomputed_from_slice :
    (∀ (m m' : PatternMatcher) (today : Today) (y1 y2 : Int),
      m.data.map corrFields = m'.data.map corrFields →
      calculate_ytd_correlation m today y1 y2 = calculate_ytd_correlation m' today y1 y2) ∧
    (∀ (m m' : PatternMatcher) (y1 : Int) (q1 : Nat) (y2 : Int) (q2 : Nat),
      m.data.map corrFields = m'.data.map corrFields →
      calculate_quarterly_correlation m y1 q1 y2 q2 =
        calculate_quarterly_correlation m' y1 q1 y2 q2) ∧
    (∀ (rs : List ℚ) (i : Nat), i < rs.length →
      (cumReturns (rs.map some)).get? i =
        some (some (((rs.take (i + 1)).map (fun r => 1 + r)).prod - 1))) ∧
    (∀ rs : List ℚ, ((rs.take 0).map (fun r => 1 + r)).prod - 1 = 0) := by
  refine ⟨fun m m' today y1 y2 h => calculate_ytd_correlation_fields today y1 y2 h,
    fun m m' y1 q1 y2 q2 h => calculate_quarterly_correlation_fields y1 q1 y2 q2 h,
    ?_, by intro rs; simp⟩
  intro rs i h
  rw [show cumReturns (rs.map some) = (purePath 1 rs).map some from
    cumReturnsAux_map_some 1 rs]
  have hb : i < (purePath 1 rs).length := by rw [purePath_length]; exact h
  rw [List.get?_map, List.get?_eq_get hb, purePath_get 1 rs i hb]
  simp

/-- Witness for C6: replacing every stored price and cumulative return in
the witness series leaves both coefficients unchanged, and the concrete
path entries follow the fresh-product formula. -/
theorem c6_witness :
    calculate_ytd_correlation wMatcherCum wToday 2024 2010 =
      calculate_ytd_correlation wMatcher wToday 2024 2010 ∧
    calculate_quarterly_correlation wMatcherCum 2024 1 2010 1 =
      calculate_quarterly_correlation wMatcher 2024 1 2010 1 ∧
    (cumReturns (vRs.map some)).get? 1 =
      some (some (((vRs.take 2).map (fun r => 1 + r)).prod - 1)) ∧
    ((vRs.take 0).map (fun r => 1 + r)).prod - 1 = 0 := by
  refine ⟨c6_path_recomputed_from_slice.1 wMatcherCum wMatcher wToday 2024 2010 rfl,
    c6_path_recomputed_from_slice.2.1 wMatcherCum wMatcher 2024 1 2010 1 rfl,
    c6_path_recomputed_from_slice.2.2.1 vRs 1 (by decide),
    c6_path_recomputed_from_slice.2.2.2 vRs⟩

/-- C9: both correlation primitives are symmetric in their two period
arguments, and the self-correlation of a valid period (a fully defined
extract of at least the minimum length whose returns are derived from
positive prices as the data model requires) with a non-constant price
path is exactly 1.0. -/
theorem c9_symmetry_and_self_correlation :
    (∀ (m : PatternMatcher) (today : Today) (y1 y2 : Int),
      calculate_ytd_correlation m today y1 y2 = calculate_ytd_correlation m today y2 y1) ∧
    (∀ (m : PatternMatcher) (y1 : Int) (q1 : Nat) (y2 : Int) (q2 : Nat),
      calculate_quarterly_correlation m y1 q1 y2 q2 =
        calculate_quarterly_correlation m y2 q2 y1 q1) ∧
    (∀ (m : PatternMatcher) (today : Today) (y : Int) (rs : List ℚ),
      (ytdRows m.data y today).map Row.returns = rs.map some →
      20 ≤ (ytdRows m.data y today).length →
      (∀ i : Nat, ∀ hi : i + 1 < (ytdRows m.data y today).length,
        ((ytdRows m.data y today).get ⟨i + 1, hi⟩).returns =
          some (((ytdRows m.data y today).get ⟨i + 1, hi⟩).adjusted_close /
            ((ytdRows m.data y today).get ⟨i, Nat.lt_of_succ_lt hi⟩).adjusted_close - 1)) →
      (∀ r ∈ ytdRows m.data y today, 0 < r.adjusted_close) →
      (∀ r0 : ℚ, rs.head? = some r0 → -1 < r0) →
      (∃ r ∈ ytdRows m.data y today, ∃ s ∈ ytdRows m.data y today,
        r.adjusted_close ≠ s.adjusted_close) →
      ∃ v, calculate_ytd_correlation m today y y = some v ∧ PV.IsOne v) ∧
    (∀ (m : PatternMatcher) (y : Int) (q : Nat) (rs : List ℚ),
      (get_quarter_data m y q).map Row.returns = rs.map some →
      15 ≤ (get_quarter_data m y q).length →
      (∀ i : Nat, ∀ hi : i + 1 < (get_quarter_data m y q).length,
        ((get_quarter_data m y q).get ⟨i + 1, hi⟩).returns =
          some (((get_quarter_data m y q).get ⟨i + 1, hi⟩).adjusted_close /
            ((get_quarter_data m y q).get ⟨i, Nat.lt_of_succ_lt hi⟩).adjusted_close - 1)) →
      (∀ r ∈ get_quarter_data m y q, 0 < r.adjusted_close) →
      (∀ r0 : ℚ, rs.head? = some r0 → -1 < r0) →
      (∃ r ∈ get_quarter_data m y q, ∃ s ∈ get_quarter_data m y q,
        r.adjusted_close ≠ s.adjusted_close) →
      ∃ v, calculate_quarterly_correlation m y q y q = some v ∧ PV.IsOne v) := by
  refine ⟨calculate_ytd_correlation_symm, calculate_quarterly_correlation_symm, ?_, ?_⟩
  · intro m today y rs h1 h2 hcons hpos hr0 hnc
    have hvar := purePath_var_pos h1 hcons hpos hr0 hnc
    rcases corrcoef_self_pure hvar with ⟨v, hv, hone, _⟩
    exact ⟨v, by rw [calculate_ytd_self_eq h1 h2, hv], hone⟩
  · intro m y q rs h1 h2 hcons hpos hr0 hnc
    have hvar := purePath_var_pos h1 hcons hpos hr0 hnc
    rcases corrcoef_self_pure hvar with ⟨v, hv, hone, _⟩
    exact ⟨v, by rw [calculate_quarterly_self_eq h1 h2, hv], hone⟩

lemma vCalc_eval : calculate_ytd_correlation vMatcher wToday 2020 2020 =
    some ⟨100, 10000⟩ := by
  simp only [calculate_ytd_correlation, vYtd_eval]
  norm_num [vData, vRow, cumReturns, cumReturnsAux, maskedPairs, corrcoef, List.zip,
    List.filterMap_cons, List.filterMap_nil]

lemma vQCalc_eval : calculate_quarterly_correlation vMatcher 2020 1 2020 1 =
    some ⟨100, 10000⟩ := by
  simp only [calculate_quarterly_correlation, vQ_eval]
  norm_num [vData, vRow, cumReturns, cumReturnsAux, maskedPairs, corrcoef, List.zip,
    List.filterMap_cons, List.filterMap_nil]

/-- Witness for C9: concrete symmetry instances, and a 20-day alternating
1/2 price path whose self-correlation is exactly 1. -/
theorem c9_witness :
    calculate_ytd_correlation wMatcher wToday 2024 2010 =
      calculate_ytd_correlation wMatcher wToday 2010 2024 ∧
    calculate_quarterly_correlation wMatcher 2024 1 2010 1 =
      calculate_quarterly_correlation wMatcher 2010 1 2024 1 ∧
    PV.IsOne ⟨100, 10000⟩ ∧
    calculate_ytd_correlation vMatcher wToday 2020 2020 = some ⟨100, 10000⟩ ∧
    calculate_quarterly_correlation vMatcher 2020 1 2020 1 = some ⟨100, 10000⟩ := by
  refine ⟨c9_symmetry_and_self_correlation.1 wMatcher wToday 2024 2010,
    c9_symmetry_and_self_correlation.2.1 wMatcher 2024 1 2010 1, ?_, vCalc_eval, vQCalc_eval⟩
  have hself : ∃ v, calculate_ytd_correlation vMatcher wToday 2020 2020 = some v ∧
      PV.IsOne v := by
    refine c9_symmetry_and_self_correlation.2.2.1 vMatcher wToday 2020 vRs
      (by rw [vYtd_eval]; exact vReturns_eval)
      (by rw [vYtd_eval]; decide) ?_ ?_ ?_ ?_
    · simp only [vYtd_eval]
      intro i hi
      have hb : i < 19 := by
        have hlen := hi
        simp [vData] at hlen
        omega
      interval_cases i <;> norm_num [vData, vRow]
    · simp only [vYtd_eval]
      intro r hr
      fin_cases hr <;> norm_num [vRow]
    · intro r0 h0
      have : (0 : ℚ) = r0 := Option.some.inj h0
      rw [← this]
      norm_num
    · simp only [vYtd_eval]
      exact ⟨vRow 1 1 0, by simp [vData], vRow 2 2 1, by simp [vData], by norm_num [vRow]⟩
  rcases hself with ⟨v, hv, hone⟩
  rw [vCalc_eval] at hv
  rw [Option.some.inj hv]
  exact hone

/-- C10: over a series with positive adjusted-close prices, every row
returned by `find_similar_years` has defined (non-NaN) `year_return` and
`ytd_return_at_similar_point`, because a defined correlation forces the
candidate's YTD extract to hold at least 20 observations. -/
theorem c10_auxiliary_returns_defined :
    ∀ (cfg : Config) (m : PatternMatcher) (today : Today) (ref : Int) (mc : ℚ),
      (∀ r ∈ m.data, 0 < r.adjusted_close) →
      ∀ row ∈ find_similar_years cfg m today ref mc,
        row.year_return.isSome ∧ row.ytd_return_at_similar_point.isSome ∧
          20 ≤ (ytdRows m.data row.year today).length := by
  intro cfg m today ref mc hpos row hrow
  rcases find_similar_years_mem hrow with ⟨y, _, _, hscore⟩
  rcases scoreYear_some hscore with ⟨corr, hcalc, _, hrow_eq⟩
  have h20 : 20 ≤ (ytdRows m.data y today).length := (calculate_ytd_some hcalc).2.1
  have hyearlen : 20 ≤ (yearRows m.data y).length := by
    have hle : (ytdRows m.data y today).length ≤ (yearRows m.data y).length :=
      List.length_filter_le _ _
    omega
  have hyne : yearRows m.data y ≠ [] := by
    intro hcon
    rw [hcon] at hyearlen
    simp at hyearlen
  have hyr : row.year = y := by rw [hrow_eq, yearEntry_year]
  rcases hh : (yearRows m.data y).head? with _ | fr
  · exact absurd (List.head?_eq_none_iff.mp hh) hyne
  rcases hl : (yearRows m.data y).getLast? with _ | lr
  · exact absurd (List.getLast?_eq_none_iff.mp hl) hyne
  have hytd_isSome : (get_ytd_return m y today.month today.day).isSome := by
    have hsub : (yearRows m.data y).filter
        (fun r => decide (r.month < today.month ∨
          (r.month = today.month ∧ r.day ≤ today.day))) = ytdRows m.data y today := rfl
    have hsubne : ytdRows m.data y today ≠ [] := by
      intro hcon
      rw [hcon] at h20
      simp at h20
    rcases hh2 : (ytdRows m.data y today).head? with _ | fr2
    · exact absurd (List.head?_eq_none_iff.mp hh2) hsubne
    rcases hl2 : (ytdRows m.data y today).getLast? with _ | lr2
    · exact absurd (List.getLast?_eq_none_iff.mp hl2) hsubne
    have h1lt : 1 < (ytdRows m.data y today).length := by omega
    simp only [get_ytd_return, hsub, hh2, hl2, if_pos h1lt, Option.isSome_some]
  rw [hrow_eq]
  simp only [yearEntry, hh, hl, yearEntry_year]
  exact ⟨rfl, hytd_isSome, h20⟩

/-- Witness for C10 at the concrete positive-price series: the returned
row's auxiliary returns are defined and its YTD extract has 21 ≥ 20
observations. -/
theorem c10_witness :
    (⟨2010, ⟨20, 400⟩, some 0, some 0⟩ : YearRow).year_return.isSome ∧
    (⟨2010, ⟨20, 400⟩, some 0, some 0⟩ : YearRow).ytd_return_at_similar_point.isSome ∧
    20 ≤ (ytdRows wMatcher.data
      (⟨2010, ⟨20, 400⟩, some 0, some 0⟩ : YearRow).year wToday).length := by
  exact c10_auxiliary_returns_defined wConfig wMatcher wToday 2024 (7 / 10)
    (by intro r hr; fin_cases hr <;> norm_num [wRow])
    ⟨2010, ⟨20, 400⟩, some 0, some 0⟩ (by rw [wFind_eval]; simp)

end PatternApp
